import Mathlib

/-!
Verification development for the AI query pipeline
(`src/ai-engine`: `nlp_processor_v2.py`, `sql_generator.py`,
`chart_recommender.py`, `models.py`).

The Python sources are shallowly embedded below:
* pure string helpers mirror the corresponding Python `str` operations;
* a small backtracking regex interpreter mirrors the semantics of
  `re.findall` / `re.search` (leftmost match, alternation priority in
  written order, lazy `.*?`, greedy `\d+`) for the concrete patterns
  appearing in the source;
* floats are embedded as rationals (all float literals in the source are
  exact decimal constants; every comparison performed by the code is far
  from the binary rounding error of those constants, so the rational
  embedding decides every comparison the same way the Python floats do);
* calls into external services (OpenAI completion, `sqlparse`) are
  modelled as explicit oracle parameters, since those libraries are not
  part of this repository.
-/

namespace AIEngine

/-- Python `str.upper` restricted to the characters that occur in this
code base (ASCII letters are upcased, CJK characters are unaffected by
both Python's `upper` and `Char.toUpper`). -/
def upperChar (c : Char) : Char := c.toUpper

/-- Python `str.lower` on the characters occurring here (used to embed
`re.IGNORECASE`: both pattern literals and subject text are folded). -/
def lowerChar (c : Char) : Char := c.toLower

/-- Uppercased copy of a string, as `sql.upper()` produces. -/
def upperStr (s : String) : String := ⟨s.data.map upperChar⟩

/-- Lowercase fold of a string used for case-insensitive matching. -/
def lowerStr (s : String) : String := ⟨s.data.map lowerChar⟩

/-- Python's `needle in hay` substring test. -/
def containsSub (hay needle : String) : Bool := decide (needle.data <:+: hay.data)

/-- Python's `str.count` — number of non-overlapping occurrences of
`needle`, scanning left to right (the code only counts non-empty
needles; an empty needle returns 0 here and is never used). -/
def countOccAux (needle : List Char) : Nat → List Char → Nat
  | 0, _ => 0
  | _ + 1, [] => 0
  | fuel + 1, c :: cs =>
    if needle ≠ [] ∧ needle.isPrefixOf (c :: cs) then
      1 + countOccAux needle fuel ((c :: cs).drop needle.length)
    else
      countOccAux needle fuel cs

/-- Python `hay.count(needle)` for non-empty needles. -/
def countOcc (hay needle : String) : Nat :=
  countOccAux needle.data (hay.data.length + 1) hay.data

/-- Characters stripped by Python `str.strip()` (the whitespace
characters occurring in the embedded strings). -/
def pyIsSpace (c : Char) : Bool :=
  c = ' ' ∨ c = '\t' ∨ c = '\n' ∨ c = '\r' ∨ c = '\x0b' ∨ c = '\x0c'

/-- List form of Python `str.strip()`. -/
def stripList (l : List Char) : List Char :=
  ((l.dropWhile pyIsSpace).reverse.dropWhile pyIsSpace).reverse

/-- Python `str.strip()`. -/
def pyStrip (s : String) : String := ⟨stripList s.data⟩

/-- A single-quote character, kept out of string literals. -/
def sq : String := ⟨[Char.ofNat 39]⟩

/-!  Regular-expression interpreter.

Only the constructs used by the patterns of `nlp_processor_v2.py` are
embedded: literal characters, character classes, `.`, concatenation,
alternation (priority to the left alternative, as in Python), the lazy
star `.*?` (prefers the shortest extension) and the greedy plus `\d+`
(prefers the longest).  Matching enumerates candidate match ends in
backtracking priority order, as Python's engine explores them; the first
candidate is the match Python commits to at a given start position. -/

inductive RE where
  | eps : RE
  | lit : Char → RE
  | cls : List Char → RE
  | dot : RE
  | seq : RE → RE → RE
  | alt : RE → RE → RE
  | starL : RE → RE
  | plusG : RE → RE
deriving Repr

/-- Iterating a lazy star whose body matcher is `f`: first try the
continuation with zero repetitions, then one more body match and
recurse.  `fuel` bounds the repetition count; every star body in the
embedded patterns consumes at least one character, so the fuel
`|s| + 1` supplied below never runs out before the input does. -/
def starLK (f : List Char → (List Char → Option (List Char)) → Option (List Char)) :
    Nat → List Char → (List Char → Option (List Char)) → Option (List Char)
  | 0, _, _ => none
  | fuel + 1, s, k =>
    match k s with
    | some r => some r
    | none => f s (fun s2 => starLK f fuel s2 k)

/-- Iterating a greedy plus whose body matcher is `f`: one body match,
then prefer further repetitions over stopping. -/
def plusGK (f : List Char → (List Char → Option (List Char)) → Option (List Char)) :
    Nat → List Char → (List Char → Option (List Char)) → Option (List Char)
  | 0, _, _ => none
  | fuel + 1, s, k =>
    f s (fun s2 =>
      match plusGK f fuel s2 k with
      | some r => some r
      | none => k s2)

/-- Backtracking matcher in continuation-passing style: explores the
alternatives of `r` at the head of `s` in Python's priority order
(left alternative first, lazy star shortest-first, greedy plus
longest-first) and returns the continuation's first success. -/
def firstEndK : RE → List Char → (List Char → Option (List Char)) → Option (List Char)
  | .eps, s, k => k s
  | .lit _, [], _ => none
  | .lit c, c' :: rest, k => if c' = c then k rest else none
  | .cls _, [], _ => none
  | .cls cs, c' :: rest, k => if cs.contains c' then k rest else none
  | .dot, [], _ => none
  | .dot, c' :: rest, k => if c' = '\n' then none else k rest
  | .seq a b, s, k => firstEndK a s (fun s2 => firstEndK b s2 k)
  | .alt a b, s, k =>
    match firstEndK a s k with
    | some r => some r
    | none => firstEndK b s k
  | .starL a, s, k => starLK (firstEndK a) (s.length + 1) s k
  | .plusG a, s, k => plusGK (firstEndK a) (s.length + 1) s k

/-- The suffix remaining after the match Python's engine commits to at
the head of `s`, if any. -/
def firstEnd (r : RE) (s : List Char) : Option (List Char) :=
  firstEndK r s some

/-- Core of `re.findall` counting: scan left to right; at each position
take the committed match if one exists, then resume after it (advancing
one character on an empty match, as Python does). -/
def countFromAux (r : RE) : Nat → List Char → Nat
  | 0, _ => 0
  | fuel + 1, s =>
    match firstEnd r s with
    | some s2 =>
      if s2.length < s.length then 1 + countFromAux r fuel s2
      else
        match s with
        | [] => 1
        | _ :: rest => 1 + countFromAux r fuel rest
    | none =>
      match s with
      | [] => 0
      | _ :: rest => countFromAux r fuel rest

/-- Number of matches `re.findall(pattern, text)` returns (the patterns
embedded here contain no groups, so `findall` yields whole matches). -/
def countMatches (r : RE) (s : List Char) : Nat :=
  countFromAux r (s.length + 1) s

/-- Whether `re.search(pattern, text)` finds a match. -/
def searchB (r : RE) (s : List Char) : Bool :=
  s.tails.any (fun t => (firstEnd r t).isSome)

/-- Position and length of the match `re.search` returns, if any. -/
def searchPos (r : RE) : List Char → Nat → Option (Nat × Nat)
  | s, i =>
    match firstEnd r s with
    | some t => some (i, s.length - t.length)
    | none =>
      match s with
      | [] => none
      | _ :: rest => searchPos r rest (i + 1)

/-- Sequence of literal characters (a plain string inside a pattern). -/
def lits (s : String) : RE :=
  (s.data.map RE.lit).foldr RE.seq RE.eps

/-- Alternation over a list, priority in list order. -/
def alts (l : List RE) : RE :=
  match l with
  | [] => RE.eps
  | [r] => r
  | r :: rest => RE.alt r (alts rest)

/-- Character class given by an explicit character list. -/
def oneOf (s : String) : RE := RE.cls s.data

/-- The lazy `.*?` construct. -/
def lazyDotStar : RE := RE.starL RE.dot

/-- The `\d+` construct. -/
def digitsPlus : RE := RE.plusG (RE.cls "0123456789".data)

/-- Concatenation of a list of regex pieces. -/
def reCat (l : List RE) : RE := l.foldr RE.seq RE.eps

/-!  Data model (`models.py`). -/

/-- `QueryType` enumeration of `models.py`. -/
inductive QueryType where
  | trend
  | comparison
  | ranking
  | statistics
  | proportion
deriving DecidableEq, Repr

/-- `ChartType` enumeration of `models.py`. -/
inductive ChartType where
  | line
  | bar
  | pie
  | number
  | table
deriving DecidableEq, Repr

/-- Values stored in an intent's `filters` mapping.  Within this
repository the values are always strings (`_extract_filters`); integer
values are included because callers may pass arbitrary JSON, and
`str(int)` is rendered by `toString`. -/
inductive FilterVal where
  | s : String → FilterVal
  | i : Int → FilterVal
deriving DecidableEq, Repr

/-- `QueryIntent` of `models.py`; `confidence` is embedded as a rational. -/
structure QueryIntent where
  queryType : QueryType
  entities : List String := []
  timeRange : Option String := none
  dimensions : List String := []
  metrics : List String := []
  filters : List (String × FilterVal) := []
  confidence : ℚ
deriving DecidableEq, Repr

/-- `SQLQuery` of `models.py`. -/
structure SQLQuery where
  sql : String
  parameters : List (String × FilterVal) := []
  estimatedCost : Option Int := none
  safetyScore : ℚ
deriving DecidableEq, Repr

/-- `QueryError` of `models.py` (the exception payload). -/
structure QueryError where
  errorType : String
  errorMessage : String
  userFriendlyMessage : String := ""
  suggestions : List String := []
deriving DecidableEq, Repr

/-!  `nlp_processor_v2.py` — query patterns.

Each Python regex literal is transcribed into the `RE` syntax.  The
patterns are matched with `re.IGNORECASE`, embedded here by folding both
subject text and the (few) ASCII letters in the patterns to lower case,
so `TOP` and `PK` appear below as `top` and `pk`.  Note that in the
source the `statistics` list contains a missing comma, so its fourth and
fifth written strings concatenate into a single fourth pattern — that
concatenation is reproduced faithfully. -/

/-- Trend patterns (`_load_query_patterns`, key `"trend"`). -/
def trendPatterns : List RE :=
  [ alts [lits "趋势", lits "变化", lits "增长", lits "下降", lits "走势",
      lits "发展", lits "演变", lits "波动", lits "起伏"],
    alts [reCat [lits "过去", lazyDotStar, oneOf "月天年"],
      reCat [lits "最近", lazyDotStar, oneOf "月天年"],
      reCat [lazyDotStar, lits "期间"], lits "历史", lits "时间", lits "变迁"],
    alts [lits "增长率", lits "变化率", lits "同比", lits "环比", lits "涨幅",
      lits "跌幅", lits "增速", lits "降速"],
    alts [lits "连续", lits "持续", lits "逐年", lits "逐月", lits "逐日",
      lits "年度", lits "月度", lits "日度"] ]

/-- Comparison patterns (key `"comparison"`). -/
def comparisonPatterns : List RE :=
  [ alts [lits "对比", lits "比较", lits "相比", lits "vs", lits "versus",
      lits "对照", lits "pk", lits "比拼"],
    alts [reCat [lits "哪个", lazyDotStar, oneOf "好高多大小优劣强弱"],
      reCat [lits "谁", lazyDotStar, oneOf "好高多大小优劣强弱"]],
    alts [lits "差异", lits "区别", lits "差别", lits "不同", lits "优劣",
      lits "强弱", lits "高低"],
    alts [reCat [lits "各", lazyDotStar, lits "之间"],
      reCat [lazyDotStar, lits "和", lazyDotStar],
      reCat [lazyDotStar, lits "与", lazyDotStar],
      reCat [lazyDotStar, lits "跟", lazyDotStar]] ]

/-- Ranking patterns (key `"ranking"`). -/
def rankingPatterns : List RE :=
  [ alts [lits "排名", lits "排行", lits "top",
      reCat [lits "前", lazyDotStar, lits "名"],
      reCat [lits "最", lazyDotStar, lits "的"],
      reCat [lits "第", lazyDotStar, lits "名"], lits "位列"],
    alts [RE.seq (lits "第") (oneOf "一二三四五六七八九十123456789"),
      RE.seq (lits "最") (oneOf "高低大小多少好坏优劣强弱")],
    alts [lits "冠军", lits "亚军", lits "季军", lits "榜首", lits "末位",
      lits "首位", lits "倒数"],
    alts [lits "排序", lits "排列", lits "名次", lits "座次", lits "位次"] ]

/-- Statistics patterns (key `"statistics"`; four patterns, with the
source's concatenated fourth string). -/
def statisticsPatterns : List RE :=
  [ alts [RE.seq (lits "总") lazyDotStar, lits "平均", lits "平均值",
      lits "总和", lits "总计", lits "合计", lits "汇总"],
    alts [lits "统计", lits "汇总", lits "概况", lits "情况", lits "数据",
      lits "指标", lits "概览"],
    alts [lits "数量", lits "个数", lits "总数", lits "计数", lits "求和",
      lits "累计"],
    alts [lits "最大值", lits "最小值", lits "最高", lits "最低", lits "极值",
      lits "均值多少", lits "几个", lits "数量", lits "总数"] ]

/-- Proportion patterns (key `"proportion"`). -/
def proportionPatterns : List RE :=
  [ alts [lits "占比", lits "比例", lits "百分比", lits "份额", lits "占据"],
    alts [lits "分布", lits "构成", lits "组成", lits "比重", lits "权重"],
    alts [lits "%", lits "percent", lits "比率"] ]

/-- The per-category pattern table `self.query_patterns`. -/
def queryPatterns : QueryType → List RE
  | .trend => trendPatterns
  | .comparison => comparisonPatterns
  | .ranking => rankingPatterns
  | .statistics => statisticsPatterns
  | .proportion => proportionPatterns

/-- Iteration order of the `query_patterns` dict (its insertion order). -/
def typeOrder : List QueryType :=
  [.trend, .comparison, .ranking, .statistics, .proportion]

/-- Total `re.findall` count of one category's patterns on a query
(the per-category `score` of `_pattern_classify`). -/
def categoryScore (query : String) (t : QueryType) : Nat :=
  ((queryPatterns t).map (fun r => countMatches r (lowerStr query).data)).sum

/-- Python `max(items, key=lambda x: x[1])`: keeps the first element and
replaces it only on a strictly larger key. -/
def pickMax (x : QueryType × Nat) (xs : List (QueryType × Nat)) : QueryType × Nat :=
  xs.foldl (fun b a => if b.2 < a.2 then a else b) x

/-- `_pattern_classify`: highest-scoring category, first in dict order on
ties, `STATISTICS` when every score is zero. -/
def patternClassify (query : String) : QueryType :=
  let scores := typeOrder.map (fun t => (t, categoryScore query t))
  match scores with
  | [] => .statistics
  | x :: xs =>
    let best := pickMax x xs
    if 0 < best.2 then best.1 else .statistics

/-!  `nlp_processor_v2.py` — input normalization and extraction. -/

/-- Characters removed by the punctuation substitution of
`_preprocess_query`.  In the source the class is written across two
adjacent raw-string literals (the two apostrophes in the middle close
and reopen the literal rather than joining the class), so the resulting
class contains the ASCII double quote — twice — but no single quote. -/
def punctuationChars : List Char :=
  ['，', '。', '！', '？', '；', '：', '"', '（', '）', '【', '】']

/-- Auxiliary for whitespace collapsing: the flag records whether the
previous character was whitespace (already emitted as one space). -/
def collapseWsAux : Bool → List Char → List Char
  | _, [] => []
  | prevSpace, c :: cs =>
    if pyIsSpace c then
      if prevSpace then collapseWsAux true cs
      else ' ' :: collapseWsAux true cs
    else c :: collapseWsAux false cs

/-- The `re.sub` replacing each whitespace run by one space (applied
after `strip` in `_preprocess_query`). -/
def collapseWs (l : List Char) : List Char := collapseWsAux false l

/-- Python `str.replace` (all non-overlapping occurrences, left to
right). -/
def replaceAllAux (old new : List Char) : Nat → List Char → List Char
  | 0, s => s
  | _ + 1, [] => []
  | fuel + 1, c :: cs =>
    if old ≠ [] ∧ old.isPrefixOf (c :: cs) then
      new ++ replaceAllAux old new fuel ((c :: cs).drop old.length)
    else c :: replaceAllAux old new fuel cs

/-- Python `s.replace(old, new)`. -/
def pyReplace (s old new : String) : String :=
  ⟨replaceAllAux old.data new.data (s.data.length + 1) s.data⟩

/-- The relative-time substitution table of `_preprocess_query`, in dict
insertion order. -/
def timeMappings : List (String × String) :=
  [("今天", "today"), ("昨天", "yesterday"), ("明天", "tomorrow"),
   ("本周", "this week"), ("上周", "last week"), ("下周", "next week"),
   ("本月", "this month"), ("上月", "last month"), ("下月", "next month"),
   ("今年", "this year"), ("去年", "last year"), ("明年", "next year"),
   ("最近", "recent"), ("过去", "past")]

/-- `_preprocess_query`: collapse whitespace, strip punctuation, then
substitute the relative-time table sequentially. -/
def preprocessQuery (query : String) : String :=
  let s1 : String := ⟨collapseWs (stripList query.data)⟩
  let s2 : String := ⟨s1.data.filter (fun c => ¬ punctuationChars.contains c)⟩
  timeMappings.foldl (fun q ce => pyReplace q ce.1 ce.2) s2

/-- Business-object lexicon of `_extract_entities` (category, keyword
variants), in dict order. -/
def businessEntities : List (String × List String) :=
  [("部门", ["部门", "科室", "分公司", "事业部", "中心"]),
   ("产品", ["产品", "商品", "服务", "项目", "方案"]),
   ("客户", ["客户", "用户", "消费者", "买家", "顾客"]),
   ("员工", ["员工", "人员", "职员", "工作人员", "团队"]),
   ("地区", ["地区", "区域", "城市", "省份", "市场"])]

/-- Metric keyword list of `_extract_entities`. -/
def businessMetrics : List String :=
  ["销售额", "营业额", "收入", "利润", "成本", "费用",
   "业绩", "绩效", "增长率", "占比", "份额", "数量",
   "单价", "客单价", "转化率", "留存率", "活跃度"]

/-- `_extract_entities`: one keyword per business-object category (the
first variant present), plus every metric keyword present, deduplicated.
Python collects them through `list(set(...))`, whose order is
unspecified; `List.dedup` fixes one order — every claim below depends
only on the length and membership of the result, which agree. -/
def extractEntities (query : String) : List String :=
  let objs := businessEntities.foldl
    (fun acc ckw =>
      match ckw.2.find? (fun k => containsSub query k) with
      | some k => acc ++ [k]
      | none => acc) []
  let mets := businessMetrics.filter (fun m => containsSub query m)
  (objs ++ mets).dedup

/-- Time-range patterns of `_extract_time_range`, in list order. -/
def timeRangePatterns : List RE :=
  [ reCat [lits "past ", digitsPlus, lits " month"],
    reCat [lits "last ", digitsPlus, lits " month"],
    reCat [lits "recent ", digitsPlus, lits " month"],
    lits "today", lits "yesterday", lits "this week", lits "last week",
    lits "this month", lits "last month", lits "this year", lits "last year" ]

/-- `_extract_time_range`: the text matched by the first pattern that
matches anywhere (`re.search` with `IGNORECASE`), else `None`. -/
def extractTimeRange (query : String) : Option String :=
  let folded := (lowerStr query).data
  timeRangePatterns.findSome? fun r =>
    (searchPos r folded 0).map fun sl => ⟨(query.data.drop sl.1).take sl.2⟩

/-- Dimension keyword list of `_extract_dimensions_metrics`. -/
def dimensionWords : List String := ["部门", "地区", "产品", "渠道", "客户", "时间"]

/-- Metric keyword list of `_extract_dimensions_metrics`. -/
def metricWords : List String := ["销售额", "收入", "利润", "数量", "客户数", "用户数"]

/-- `_extract_dimensions_metrics`. -/
def extractDimensionsMetrics (query : String) : List String × List String :=
  (dimensionWords.filter (fun d => containsSub query d),
   metricWords.filter (fun m => containsSub query m))

/-- `_extract_filters`. -/
def extractFilters (query : String) : List (String × FilterVal) :=
  if containsSub query "大于" || containsSub query "超过" then
    [("condition", .s "greater_than")]
  else if containsSub query "小于" || containsSub query "低于" then
    [("condition", .s "less_than")]
  else if containsSub query "等于" then [("condition", .s "equal")]
  else []

/-- Python `round(x, 2)` (round half to even), on the rational embedding. -/
def pyRound2 (q : ℚ) : ℚ :=
  let m := q * 100
  let n : ℤ := ⌊m⌋
  let f : ℚ := m - n
  let k : ℤ :=
    if f < 1/2 then n
    else if 1/2 < f then n + 1
    else if n % 2 = 0 then n else n + 1
  (k : ℚ) / 100

/-- Business keyword list of the confidence bonus. -/
def businessKeywords : List String :=
  ["销售", "业绩", "数据", "分析", "统计", "对比", "趋势",
   "营收", "利润", "成本", "客户", "产品", "部门", "地区"]

/-- `_calculate_enhanced_confidence`: five weighted factors, additive
bonuses, clamp at 1.0, rounding to two decimals. -/
def calculateEnhancedConfidence (query : String) (queryType : QueryType)
    (entities : List String) (timeRange : Option String)
    (dimensions metrics : List String) : ℚ :=
  let typePatterns := queryPatterns queryType
  let typeMatchCount :=
    (typePatterns.filter (fun p => searchB p (lowerStr query).data)).length
  let typeConfidence : ℚ :=
    if typePatterns.isEmpty then 3/10
    else min ((typeMatchCount : ℚ) / typePatterns.length) 1
  let entityScore : ℚ :=
    if 3 ≤ entities.length then 1
    else if 2 ≤ entities.length then 8/10
    else if 1 ≤ entities.length then 6/10
    else 3/10
  let timeConfidence : ℚ := if timeRange.isSome then 9/10 else 4/10
  let dimConfidence : ℚ :=
    if dimensions.isEmpty then 1/2 else min ((dimensions.length : ℚ) / 1) 1
  let metricConfidence : ℚ :=
    if metrics.isEmpty then 1/2 else min ((metrics.length : ℚ) / 1) 1
  let weighted := typeConfidence * (3/10) + entityScore * (2/10)
    + timeConfidence * (2/10) + dimConfidence * (15/100)
    + metricConfidence * (15/100)
  let queryLength := (pyStrip query).length
  let lenBonus : ℚ := if 10 ≤ queryLength ∧ queryLength ≤ 100 then 5/100 else 0
  let keywordCount := (businessKeywords.filter (fun kw => containsSub query kw)).length
  let kwBonus : ℚ :=
    (if 2 ≤ keywordCount then 5/100 else 0) + (if 4 ≤ keywordCount then 5/100 else 0)
  pyRound2 (min (weighted + (lenBonus + kwBonus)) 1)

/-- `_local_parse_intent` (its unused `confidence` argument is dropped). -/
def localParseIntent (query : String) (baseType : QueryType) : QueryIntent :=
  let entities := extractEntities query
  let timeRange := extractTimeRange query
  let dm := extractDimensionsMetrics query
  { queryType := baseType
    entities := entities
    timeRange := timeRange
    dimensions := dm.1
    metrics := dm.2
    filters := extractFilters query
    confidence :=
      calculateEnhancedConfidence query baseType entities timeRange dm.1 dm.2 }

/-!  `nlp_processor_v2.py` — the OpenAI gate and call accounting.
The OpenAI client itself is external; one attempted call is modelled by
an oracle outcome (a validated intent on success, or failure standing
for timeout / network error / malformed or incomplete JSON). -/

/-- The mutable processor state touched by `parse_query_intent`
(`api_cost_tracking` is modelled by its length). -/
structure NLPState where
  apiCallCount : Nat := 0
  apiCostTracking : Nat := 0
deriving DecidableEq, Repr

/-- The credential configuration read from `config`. -/
structure EngineConfig where
  openaiApiKey : Option String
deriving DecidableEq, Repr

/-- `_should_use_openai`: daily ceiling of 1000 calls, and the key must
be present, non-empty and not the placeholder. -/
def shouldUseOpenai (st : NLPState) (cfg : EngineConfig) : Bool :=
  if 1000 ≤ st.apiCallCount then false
  else if cfg.openaiApiKey = none ∨ cfg.openaiApiKey = some ""
      ∨ cfg.openaiApiKey = some "test_key_placeholder" then false
  else true

/-- Outcome of one attempted external call. -/
inductive OpenAIOutcome where
  | success : QueryIntent → OpenAIOutcome
  | failure : OpenAIOutcome
deriving Repr

/-- `_track_api_usage`: increments the call counter and appends one
record to the tracking list. -/
def trackApiUsage (st : NLPState) : NLPState :=
  { apiCallCount := st.apiCallCount + 1
    apiCostTracking := st.apiCostTracking + 1 }

/-- Result of one `parse_query_intent` request: the new processor state,
whether the external refiner was invoked, and the produced intent. -/
structure ParseResult where
  state : NLPState
  invokedOpenAI : Bool
  intent : QueryIntent
deriving Repr

/-- `parse_query_intent`: preprocess, classify locally, then either
refine through the external service (tracking usage only on success —
the `except` path falls back to local parsing without reaching
`_track_api_usage`) or parse locally. -/
def parseQueryIntent (st : NLPState) (cfg : EngineConfig)
    (naturalQuery : String) (useOpenai : Bool)
    (outcome : OpenAIOutcome) : ParseResult :=
  let cleaned := preprocessQuery naturalQuery
  let baseType := patternClassify cleaned
  if useOpenai && shouldUseOpenai st cfg then
    match outcome with
    | .success intent => ⟨trackApiUsage st, true, intent⟩
    | .failure => ⟨st, true, localParseIntent cleaned baseType⟩
  else ⟨st, false, localParseIntent cleaned baseType⟩

/-!  `sql_generator.py`.

`sqlparse` is an external library; the two facts `_check_sql_safety`
reads off its output (whether the parse produced at least one statement,
and whether the first non-whitespace token is the DML keyword `SELECT`)
are supplied as booleans.  The GPT optimization round-trip
`_gpt_optimize_sql` returns either the model's SQL or, on any failure,
the base SQL unchanged; it is modelled as an arbitrary function from the
base statement to the statement actually used. -/

/-- `self.dangerous_keywords`. -/
def dangerousKeywords : List String :=
  ["DROP", "DELETE", "TRUNCATE", "ALTER", "CREATE", "INSERT",
   "UPDATE", "EXEC", "EXECUTE", "GRANT", "REVOKE"]

/-- The denylist loop of `_check_sql_safety`: some keyword occurs in the
uppercased statement. -/
def containsDangerous (sql : String) : Bool :=
  dangerousKeywords.any (fun k => containsSub (upperStr sql) k)

/-- The injection regex `['\"];|--|/\*|\*/` of `_check_sql_safety`: a
quote directly followed by a semicolon, or a comment delimiter. -/
def hasInjectionIndicator (sql : String) : Bool :=
  containsSub sql (sq ++ ";") || containsSub sql ("\"" ++ ";")
    || containsSub sql "--" || containsSub sql "/*" || containsSub sql "*/"

/-- `_check_sql_safety`.  `parseNonempty` is whether `sqlparse.parse`
returned at least one statement; `firstTokenSelect` is whether its first
non-whitespace token is the DML keyword `SELECT`. -/
def checkSqlSafety (sql : String) (parseNonempty firstTokenSelect : Bool) : ℚ :=
  if containsDangerous sql then 0
  else if ¬parseNonempty then 3/10
  else if ¬firstTokenSelect then 1/5
  else
    let s1 : ℚ := 9/10
    let s2 : ℚ := if hasInjectionIndicator sql then s1 - 3/10 else s1
    let s3 : ℚ := if 3 < countOcc sql "SELECT" then s2 - 1/10 else s2
    max 0 s3

/-- `_estimate_query_cost` (its unused `schema_info` argument is
dropped).  Note the subquery term counts the exact uppercase substring
`SELECT` and subtracts one, exactly as `sql.count('SELECT') - 1` does,
so the result is a (possibly negative) integer. -/
def estimateQueryCost (sql : String) : Int :=
  let c1 : Int := 1
  let c2 : Int := c1 + (countOcc (upperStr sql) "JOIN" : Int) * 2
  let c3 : Int := c2 + ((countOcc sql "SELECT" : Int) - 1) * 3
  let functionPatterns := ["GROUP BY", "ORDER BY", "DISTINCT", "UNION"]
  c3 + ((functionPatterns.filter (fun p => containsSub (upperStr sql) p)).length : Int)

/-- `_map_entities_to_columns`: for each entity, the first column whose
lowercase form contains the lowercase entity or vice versa; unmatched
entities are dropped. -/
def mapEntitiesToColumns (entities availableColumns : List String) : List String :=
  entities.foldl
    (fun acc entity =>
      match availableColumns.find?
        (fun col => containsSub (lowerStr col) (lowerStr entity)
          || containsSub (lowerStr entity) (lowerStr col)) with
      | some col => acc ++ [col]
      | none => acc) []

/-- `_build_where_conditions`: `LIKE` clause for string values, equality
for others, joined by `AND`. -/
def buildWhereConditions (filters : List (String × FilterVal))
    (_availableColumns : List String) : String :=
  if filters.isEmpty then "1=1"
  else
    " AND ".intercalate (filters.map fun kv =>
      match kv.2 with
      | .s v => kv.1 ++ " LIKE " ++ sq ++ "%" ++ v ++ "%" ++ sq
      | .i v => kv.1 ++ " = " ++ toString v)

/-- Time keywords used to detect a time column in `_build_time_filter`. -/
def timeFilterKeywords : List String := ["date", "time", "created", "updated"]

/-- `_build_time_filter`: the fixed lookup of relative time ranges
against the first time-keyword column; `1=1` when no time range, no time
column, or an unrecognized token. -/
def buildTimeFilter (timeRange : Option String) (availableColumns : List String) : String :=
  match timeRange with
  | none => "1=1"
  | some tr =>
    match availableColumns.find?
      (fun col => timeFilterKeywords.any (fun kw => containsSub (lowerStr col) kw)) with
    | none => "1=1"
    | some tc =>
      let t := lowerStr tr
      if t = "today" then tc ++ " >= CURRENT_DATE"
      else if t = "yesterday" then
        tc ++ " >= CURRENT_DATE - INTERVAL " ++ sq ++ "1 day" ++ sq
          ++ " AND " ++ tc ++ " < CURRENT_DATE"
      else if t = "this week" then
        tc ++ " >= DATE_TRUNC(" ++ sq ++ "week" ++ sq ++ ", CURRENT_DATE)"
      else if t = "last week" then
        tc ++ " >= DATE_TRUNC(" ++ sq ++ "week" ++ sq ++ ", CURRENT_DATE - INTERVAL "
          ++ sq ++ "1 week" ++ sq ++ ") AND " ++ tc ++ " < DATE_TRUNC("
          ++ sq ++ "week" ++ sq ++ ", CURRENT_DATE)"
      else if t = "this month" then
        tc ++ " >= DATE_TRUNC(" ++ sq ++ "month" ++ sq ++ ", CURRENT_DATE)"
      else if t = "last month" then
        tc ++ " >= DATE_TRUNC(" ++ sq ++ "month" ++ sq ++ ", CURRENT_DATE - INTERVAL "
          ++ sq ++ "1 month" ++ sq ++ ") AND " ++ tc ++ " < DATE_TRUNC("
          ++ sq ++ "month" ++ sq ++ ", CURRENT_DATE)"
      else "1=1"

/-- Time keywords used by `_get_time_dimension` (note: no `updated`). -/
def timeDimensionKeywords : List String := ["date", "time", "created"]

/-- `_get_time_dimension`: first column containing a time keyword, with
default column name `created_at`. -/
def getTimeDimension (availableColumns : List String) : String :=
  match availableColumns.find?
    (fun col => timeDimensionKeywords.any (fun kw => containsSub (lowerStr col) kw)) with
  | some col => col
  | none => "created_at"

/-- The caller-supplied schema descriptor (`schema_info` dict reads). -/
structure SchemaInfo where
  mainTable : Option String := none
  columns : Option (List String) := none
deriving DecidableEq, Repr

/-- The named parameters `sql_params` that fill a template. -/
structure SqlParams where
  table : String
  dimensions : String
  metrics : String
  metric : String
  dimension : String
  timeDimension : String
  filters : String
  timeFilter : String
  limit : String
deriving DecidableEq, Repr

/-- The `"trend"` template of `_load_sql_templates`, with its
placeholders substituted (`str.format` on the fixed literal). -/
def fillTrend (p : SqlParams) : String :=
  "\n            SELECT " ++ p.timeDimension ++ ", " ++ p.metrics
    ++ "\n            FROM " ++ p.table
    ++ "\n            WHERE " ++ p.timeFilter
    ++ "\n            GROUP BY " ++ p.timeDimension
    ++ "\n            ORDER BY " ++ p.timeDimension
    ++ "\n            "

/-- The `"comparison"` template, substituted. -/
def fillComparison (p : SqlParams) : String :=
  "\n            SELECT " ++ p.dimensions ++ ", " ++ p.metrics
    ++ "\n            FROM " ++ p.table
    ++ "\n            WHERE " ++ p.filters
    ++ "\n            GROUP BY " ++ p.dimensions
    ++ "\n            ORDER BY " ++ p.metrics ++ " DESC"
    ++ "\n            "

/-- The `"ranking"` template, substituted. -/
def fillRanking (p : SqlParams) : String :=
  "\n            SELECT " ++ p.dimensions ++ ", " ++ p.metrics
    ++ "\n            FROM " ++ p.table
    ++ "\n            WHERE " ++ p.filters
    ++ "\n            GROUP BY " ++ p.dimensions
    ++ "\n            ORDER BY " ++ p.metrics ++ " DESC"
    ++ "\n            LIMIT " ++ p.limit
    ++ "\n            "

/-- The `"statistics"` template, substituted. -/
def fillStatistics (p : SqlParams) : String :=
  "\n            SELECT \n                COUNT(*) as total_count,"
    ++ "\n                AVG(" ++ p.metric ++ ") as avg_value,"
    ++ "\n                SUM(" ++ p.metric ++ ") as sum_value,"
    ++ "\n                MAX(" ++ p.metric ++ ") as max_value,"
    ++ "\n                MIN(" ++ p.metric ++ ") as min_value"
    ++ "\n            FROM " ++ p.table
    ++ "\n            WHERE " ++ p.filters
    ++ "\n            "

/-- The `"proportion"` template, substituted. -/
def fillProportion (p : SqlParams) : String :=
  "\n            SELECT \n                " ++ p.dimension ++ ","
    ++ "\n                " ++ p.metric ++ ","
    ++ "\n                ROUND(" ++ p.metric ++ " * 100.0 / SUM(" ++ p.metric
    ++ ") OVER (), 2) as percentage"
    ++ "\n            FROM " ++ p.table
    ++ "\n            WHERE " ++ p.filters
    ++ "\n            GROUP BY " ++ p.dimension
    ++ "\n            ORDER BY " ++ p.metric ++ " DESC"
    ++ "\n            "

/-- `self.sql_templates.get(query_type, templates["statistics"])`,
already substituted; every `QueryType` value is a key, so the
`statistics` fallback of the `.get` never fires. -/
def templateFill : QueryType → SqlParams → String
  | .trend => fillTrend
  | .comparison => fillComparison
  | .ranking => fillRanking
  | .statistics => fillStatistics
  | .proportion => fillProportion

/-- The `sql_params` dict `_generate_template_sql` builds before filling
the template (the two `or "1=1"` fallbacks never fire, since the two
builders always return non-empty strings, but they are embedded). -/
def sqlParams (intent : QueryIntent) (schemaInfo : SchemaInfo) : SqlParams :=
  let mainTable := schemaInfo.mainTable.getD "data_table"
  let availableColumns := schemaInfo.columns.getD []
  let dimensions := mapEntitiesToColumns intent.dimensions availableColumns
  let metrics := mapEntitiesToColumns intent.metrics availableColumns
  let filters := buildWhereConditions intent.filters availableColumns
  let timeFilter := buildTimeFilter intent.timeRange availableColumns
  { table := mainTable
    dimensions := if dimensions.isEmpty then "1" else ", ".intercalate dimensions
    metrics := if metrics.isEmpty then "COUNT(*)" else ", ".intercalate metrics
    metric := metrics.headD "sales_amount"
    dimension := dimensions.headD "category"
    timeDimension := getTimeDimension availableColumns
    filters := if filters = "" then "1=1" else filters
    timeFilter := if timeFilter = "" then "1=1" else timeFilter
    limit := "10" }

/-- `_generate_template_sql`. -/
def generateTemplateSql (intent : QueryIntent) (schemaInfo : SchemaInfo) : String :=
  pyStrip (templateFill intent.queryType (sqlParams intent schemaInfo))

/-- `generate_sql`, inner `try` body: build template SQL, let the
optimization oracle transform it, safety-check, and either reject below
the 0.8 threshold (raising the typed safety error) or return the
query object. -/
def generateSqlBody (intent : QueryIntent) (schemaInfo : SchemaInfo)
    (optimize : String → String) (parseOracle : String → Bool × Bool) :
    Except QueryError SQLQuery :=
  let templateSql := generateTemplateSql intent schemaInfo
  let optimized := optimize templateSql
  let safety := checkSqlSafety optimized (parseOracle optimized).1 (parseOracle optimized).2
  if safety < 8/10 then
    .error
      { errorType := "SQL_SAFETY_ERROR"
        errorMessage := "生成的SQL包含潜在危险操作"
        userFriendlyMessage := "查询包含不安全的操作，已被阻止。" }
  else
    .ok
      { sql := optimized
        parameters := []
        estimatedCost := some (estimateQueryCost optimized)
        safetyScore := safety }

/-- `generate_sql` as the caller sees it: the surrounding
`except Exception` clause catches every exception raised in the body —
including the `QueryError` the body itself raised for a safety
violation — and re-raises it as `SQL_GENERATION_ERROR` wrapping
`str(e)` (which for a `QueryError` is its `error_message`). -/
def generateSql (intent : QueryIntent) (schemaInfo : SchemaInfo)
    (optimize : String → String) (parseOracle : String → Bool × Bool) :
    Except QueryError SQLQuery :=
  match generateSqlBody intent schemaInfo optimize parseOracle with
  | .ok q => .ok q
  | .error e =>
    .error
      { errorType := "SQL_GENERATION_ERROR"
        errorMessage := e.errorMessage
        userFriendlyMessage := "无法为您的查询生成有效的SQL语句，请尝试重新描述。" }

/-!  `chart_recommender.py`. -/

/-- A Python value in a data-preview row: int, float, string, or
`None`.  The float payload is irrelevant to every predicate below. -/
inductive PyVal where
  | i : Int → PyVal
  | f : ℚ → PyVal
  | s : String → PyVal
  | null : PyVal
deriving DecidableEq, Repr

/-- A preview row: an ordered dict of column name to value. -/
abbrev Row := List (String × PyVal)

/-- Recognizer for strings accepted by Python's `float()` constructor:
optional surrounding whitespace and sign, then digits with an optional
point and exponent, or `inf`/`infinity`/`nan` in any case. -/
def isDigitChar (c : Char) : Bool := decide ('0' ≤ c ∧ c ≤ '9')

/-- Splits a leading digit run. -/
def splitDigits (l : List Char) : List Char × List Char :=
  (l.takeWhile isDigitChar, l.dropWhile isDigitChar)

/-- Accepts an optional exponent part followed by end of input. -/
def expTailOk : List Char → Bool
  | [] => true
  | c :: rest =>
    if c = 'e' ∨ c = 'E' then
      let rest2 :=
        match rest with
        | c2 :: r2 => if c2 = '+' ∨ c2 = '-' then r2 else rest
        | [] => rest
      let dr := splitDigits rest2
      ¬dr.1.isEmpty ∧ dr.2.isEmpty
    else false

/-- Accepts `digits[.digits][exp]` or `.digits[exp]` to end of input. -/
def mantissaOk (l : List Char) : Bool :=
  let ir := splitDigits l
  match ir.2 with
  | '.' :: r2 =>
    let fr := splitDigits r2
    (¬ir.1.isEmpty ∨ ¬fr.1.isEmpty) ∧ expTailOk fr.2
  | _ => ¬ir.1.isEmpty ∧ expTailOk ir.2

/-- Whether `float(s)` succeeds on the string `s`. -/
def isFloatLiteral (str : String) : Bool :=
  let l := (str.data.dropWhile pyIsSpace).reverse.dropWhile pyIsSpace |>.reverse
  let l2 :=
    match l with
    | c :: r => if c = '+' ∨ c = '-' then r else l
    | [] => l
  let ll := l2.map lowerChar
  ll = "inf".data ∨ ll = "infinity".data ∨ ll = "nan".data ∨ mantissaOk l2

/-- `_is_numeric_string` as invoked on an arbitrary value: `float(v)`
succeeds on ints, floats and numeric strings, and raises on `None`. -/
def isNumericValue : PyVal → Bool
  | .i _ => true
  | .f _ => true
  | .s str => isFloatLiteral str
  | .null => false

/-- `self.chart_rules` (every query type is a key, so the `.get`
default `ChartType.TABLE` in `recommend_chart` never fires). -/
def chartRules : QueryType → ChartType
  | .trend => .line
  | .comparison => .bar
  | .ranking => .bar
  | .statistics => .number
  | .proportion => .pie

/-- Column-name keywords of `_has_time_series_data`. -/
def timeSeriesKeywords : List String := ["date", "time", "created", "updated", "timestamp"]

/-- `_has_time_series_data`: some key of the first row contains a time
keyword (case-insensitively). -/
def hasTimeSeriesData (preview : List Row) : Bool :=
  match preview with
  | [] => false
  | sample :: _ =>
    sample.any (fun kv => timeSeriesKeywords.any (fun kw => containsSub (lowerStr kv.1) kw))

/-- `_has_categorical_data`: some value of the first row is a
non-numeric string. -/
def hasCategoricalData (preview : List Row) : Bool :=
  match preview with
  | [] => false
  | sample :: _ =>
    sample.any (fun kv =>
      match kv.2 with
      | .s str => ¬ isFloatLiteral str
      | _ => false)

/-- `_has_numeric_data`: some value of the first row is an int, a float,
or a numeric string. -/
def hasNumericData (preview : List Row) : Bool :=
  match preview with
  | [] => false
  | sample :: _ => sample.any (fun kv => isNumericValue kv.2)

/-- `_optimize_chart_by_data`.  All data-shape features are computed
from `data_preview[0]`, the first row, while `row_count` is the length
of the whole preview. -/
def optimizeChartByData (baseChart : ChartType) (preview : List Row)
    (_intent : QueryIntent) : ChartType :=
  if preview.isEmpty then baseChart
  else
    let sample := preview.headD []
    let columnCount := sample.length
    let rowCount := preview.length
    let hasTime := hasTimeSeriesData preview
    let hasCat := hasCategoricalData preview
    let hasNum := hasNumericData preview
    if hasTime && hasNum then .line
    else if hasCat && hasNum then
      if rowCount ≤ 5 then .pie
      else if rowCount ≤ 20 then .bar
      else .table
    else if columnCount = 1 then .number
    else if 50 < rowCount then .table
    else baseChart

/-- `recommend_chart`: the base rule for the intent's category, refined
by `_optimize_chart_by_data` when a non-empty preview is supplied.  The
`except` fallback to `TABLE` is unreachable in the embedding, whose
operations are all total. -/
def recommendChart (intent : QueryIntent) (dataPreview : Option (List Row)) : ChartType :=
  let base := chartRules intent.queryType
  match dataPreview with
  | some preview => if preview.isEmpty then base else optimizeChartByData base preview intent
  | none => base

/-!  Concrete inputs used by witnesses and counterexamples. -/

/-- A 101-character query recognising three entities, a time range, one
dimension (渠道) and one metric (用户数), while matching no
classification pattern and no business bonus keyword. -/
def q5Query : String := "渠道用户数团队市场today" ++ String.mk (List.replicate 87 'x')

/-- An intent with a given category and filters and no extracted
structure, as C8 quantifies over. -/
def defaultIntent (qt : QueryType) (filters : List (String × FilterVal)) : QueryIntent :=
  { queryType := qt, filters := filters, confidence := 6/10 }

/-- A trend intent with no extracted structure. -/
def trendIntentEx : QueryIntent := { queryType := .trend, confidence := 6/10 }

/-- A statistics intent with no extracted structure. -/
def statsIntentEx : QueryIntent := { queryType := .statistics, confidence := 6/10 }

/-- A high-signal query: three entities, a time range, dimensions and
metrics. -/
def highSignalQuery : String := "部门产品销售额today"

/-- Categorical + numeric preview rows (first column a non-numeric
string, second an integer). -/
def previewCatNum (n : Nat) : List Row :=
  List.replicate n [("name", PyVal.s "北区"), ("value", PyVal.i 100)]

/-- A preview whose only column is named like a time column and holds a
numeric value in the second row but a non-numeric string in the first. -/
def previewMixed : List Row := [[("date_col", PyVal.s "abc")], [("date_col", PyVal.i 5)]]

/-- A preview with a time-keyword column and a numeric column. -/
def previewTimeNum : List Row := [[("date", PyVal.s "2024-01"), ("value", PyVal.i 5)]]

/-- Reading of §4.7's "at least one column holds numeric-or-numeric-string
values" over the whole preview (any row), used to state C7's
counterexample against the code's first-row-only computation. -/
def anyRowNumericValue (preview : List Row) : Bool :=
  preview.any (fun row => row.any (fun kv => isNumericValue kv.2))

/-!  Helper lemmas: substring containment, stripping, rounding. -/

theorem containsSub_iff {hay needle : String} :
    containsSub hay needle = true ↔ needle.data <:+: hay.data := by
  simp [containsSub]

theorem infix_app_left {α : Type} {x l₂ : List α} (l₁ : List α)
    (h : x <:+: l₂) : x <:+: l₁ ++ l₂ := by
  obtain ⟨s, t, rfl⟩ := h
  exact ⟨l₁ ++ s, t, by simp⟩

theorem infix_app_right {α : Type} {x l₁ : List α} (l₂ : List α)
    (h : x <:+: l₁) : x <:+: l₁ ++ l₂ := by
  obtain ⟨s, t, rfl⟩ := h
  exact ⟨s, t ++ l₂, by simp⟩

theorem infix_dropWhile {p : Char → Bool} {x l : List Char}
    (hd : ∀ c, x.head? = some c → p c = false) (h : x <:+: l) :
    x <:+: l.dropWhile p := by
  obtain ⟨s, t, rfl⟩ := h
  induction s with
  | nil =>
    simp only [List.nil_append]
    cases x with
    | nil => exact List.nil_infix
    | cons c x' =>
      rw [List.cons_append, List.dropWhile_cons, hd c rfl]
      simp only [Bool.false_eq_true, if_false]
      exact ⟨[], t, by simp⟩
  | cons d s' ih =>
    simp only [List.cons_append, List.dropWhile_cons]
    by_cases hpd : p d
    · simp only [hpd, if_true]
      simpa using ih
    · simp only [hpd, Bool.false_eq_true, if_false]
      exact ⟨d :: s', t, by simp⟩

theorem infix_stripList {x l : List Char}
    (hd : ∀ c, x.head? = some c → pyIsSpace c = false)
    (hl : ∀ c, x.getLast? = some c → pyIsSpace c = false)
    (h : x <:+: l) : x <:+: stripList l := by
  have h1 : x <:+: l.dropWhile pyIsSpace := infix_dropWhile hd h
  have h2 : x.reverse <:+: (l.dropWhile pyIsSpace).reverse := h1.reverse
  have h3 : x.reverse <:+: ((l.dropWhile pyIsSpace).reverse).dropWhile pyIsSpace := by
    refine infix_dropWhile ?_ h2
    intro c hc
    exact hl c (by simpa [List.head?_reverse] using hc)
  have h4 := h3.reverse
  simpa [stripList] using h4

theorem containsSub_pyStrip {s x : String}
    (hd : x.data.head?.all (fun c => ! pyIsSpace c) = true)
    (hl : x.data.getLast?.all (fun c => ! pyIsSpace c) = true)
    (h : x.data <:+: s.data) : containsSub (pyStrip s) x = true := by
  rw [containsSub_iff]
  refine infix_stripList ?_ ?_ h
  · intro c hc
    rw [hc] at hd
    simpa using hd
  · intro c hc
    rw [hc] at hl
    simpa using hl

theorem containsDangerous_of_keyword {sql kw : String}
    (hkw : kw ∈ dangerousKeywords) (h : kw.data <:+: (upperStr sql).data) :
    containsDangerous sql = true := by
  simp only [containsDangerous, List.any_eq_true]
  exact ⟨kw, hkw, by rw [containsSub_iff]; exact h⟩

theorem upper_infix_of_infix {x s : String} (h : x.data <:+: s.data) :
    (x.data.map upperChar) <:+: (upperStr s).data := by
  simpa [upperStr] using h.map upperChar

/-!  Rounding lemmas for `pyRound2`. -/

theorem pyRound2_intDiv (k : ℤ) : pyRound2 ((k : ℚ) / 100) = (k : ℚ) / 100 := by
  have hm : ((k : ℚ) / 100) * 100 = (k : ℚ) := by
    field_simp
  simp only [pyRound2, hm, Int.floor_intCast]
  rw [if_pos (by simp : (k : ℚ) - (k : ℚ) < 1 / 2)]

theorem pyRound2_repr (q : ℚ) : ∃ k : ℤ, pyRound2 q = (k : ℚ) / 100 := by
  simp only [pyRound2]
  split_ifs <;> exact ⟨_, rfl⟩

theorem pyRound2_idem (q : ℚ) : pyRound2 (pyRound2 q) = pyRound2 q := by
  obtain ⟨k, hk⟩ := pyRound2_repr q
  rw [hk, pyRound2_intDiv]

theorem le_pyRound2 {k : ℤ} {q : ℚ} (h : (k : ℚ) / 100 ≤ q) :
    (k : ℚ) / 100 ≤ pyRound2 q := by
  have hk : (k : ℚ) ≤ q * 100 := by linarith [(div_le_iff₀ (by norm_num : (0:ℚ) < 100)).mp h]
  have hfl : k ≤ ⌊q * 100⌋ := Int.le_floor.mpr hk
  have hstep : (⌊q * 100⌋ : ℤ) ≤
      (if q * 100 - (⌊q * 100⌋ : ℚ) < 1 / 2 then ⌊q * 100⌋
       else if 1 / 2 < q * 100 - (⌊q * 100⌋ : ℚ) then ⌊q * 100⌋ + 1
       else if ⌊q * 100⌋ % 2 = 0 then ⌊q * 100⌋ else ⌊q * 100⌋ + 1) := by
    split_ifs <;> omega
  simp only [pyRound2]
  have : (k : ℚ) ≤
      ((if q * 100 - (⌊q * 100⌋ : ℚ) < 1 / 2 then ⌊q * 100⌋
        else if 1 / 2 < q * 100 - (⌊q * 100⌋ : ℚ) then ⌊q * 100⌋ + 1
        else if ⌊q * 100⌋ % 2 = 0 then ⌊q * 100⌋ else ⌊q * 100⌋ + 1 : ℤ) : ℚ) := by
    exact_mod_cast le_trans hfl hstep
  linarith [this]

theorem pyRound2_le {k : ℤ} {q : ℚ} (h : q ≤ (k : ℚ) / 100) :
    pyRound2 q ≤ (k : ℚ) / 100 := by
  have hk : q * 100 ≤ (k : ℚ) := by linarith [(le_div_iff₀ (by norm_num : (0:ℚ) < 100)).mp h]
  have hfl : ⌊q * 100⌋ ≤ k := by
    have := Int.floor_le_floor hk
    simpa [Int.floor_intCast] using this
  have hflle : (⌊q * 100⌋ : ℚ) ≤ q * 100 := Int.floor_le _
  simp only [pyRound2]
  split_ifs with h1 h2 h3
  · exact div_le_div_of_nonneg_right (by exact_mod_cast hfl) (by norm_num)
  · have hlt : (⌊q * 100⌋ : ℤ) < k := by
      by_contra hcon
      have he : ⌊q * 100⌋ = k := le_antisymm hfl (by omega)
      have : (1:ℚ)/2 ≤ 0 := by
        have := he ▸ h2
        nlinarith [hk, this]
      norm_num at this
    have : (⌊q * 100⌋ : ℤ) + 1 ≤ k := by omega
    exact div_le_div_of_nonneg_right (by exact_mod_cast this) (by norm_num)
  · exact div_le_div_of_nonneg_right (by exact_mod_cast hfl) (by norm_num)
  · have hhalf : (1:ℚ)/2 ≤ q * 100 - (⌊q * 100⌋ : ℚ) := le_of_not_lt h1
    have hlt : (⌊q * 100⌋ : ℤ) < k := by
      by_contra hcon
      have he : ⌊q * 100⌋ = k := le_antisymm hfl (by omega)
      have : (1:ℚ)/2 ≤ 0 := by
        have h2' := he ▸ hhalf
        nlinarith [hk, h2']
      norm_num at this
    have : (⌊q * 100⌋ : ℤ) + 1 ≤ k := by omega
    exact div_le_div_of_nonneg_right (by exact_mod_cast this) (by norm_num)

theorem pyRound2_nonneg {q : ℚ} (h : 0 ≤ q) : 0 ≤ pyRound2 q := by
  have := le_pyRound2 (k := 0) (q := q) (by simpa using h)
  simpa using this

theorem pyRound2_le_one {q : ℚ} (h : q ≤ 1) : pyRound2 q ≤ 1 := by
  have := pyRound2_le (k := 100) (q := q) (by norm_num [h])
  simpa using this

theorem checkSqlSafety_pos {sql : String} {pne fsel : Bool}
    (hD : containsDangerous sql = false) : 0 < checkSqlSafety sql pne fsel := by
  simp only [checkSqlSafety, hD, Bool.false_eq_true, if_false]
  split_ifs <;> norm_num

/-- C1: for every statement, `_check_sql_safety` returns exactly `0.0`
if and only if the uppercased statement contains a keyword of the fixed
denylist; in particular any statement containing `DROP TABLE x` scores
`0.0`. -/
theorem checkSqlSafety_zero_iff_denylist :
    (∀ (sql : String) (pne fsel : Bool),
       checkSqlSafety sql pne fsel = 0 ↔ containsDangerous sql = true) ∧
    (∀ (sql : String) (pne fsel : Bool),
       containsSub sql "DROP TABLE x" = true → checkSqlSafety sql pne fsel = 0) := by
  constructor
  · intro sql pne fsel
    by_cases hD : containsDangerous sql = true
    · simp [checkSqlSafety, hD]
    · have hDf : containsDangerous sql = false := by
        simpa using hD
      exact iff_of_false (checkSqlSafety_pos hDf).ne' (by simp [hDf])
  · intro sql pne fsel h
    have h1 : "DROP TABLE x".data <:+: sql.data := containsSub_iff.mp h
    have h2 := upper_infix_of_infix h1
    have h4 : "DROP TABLE x".data.map upperChar = "DROP TABLE X".data := by decide
    have h3 : "DROP".data <:+: "DROP TABLE X".data := by decide
    have h5 : containsDangerous sql = true :=
      containsDangerous_of_keyword (by decide) (h3.trans (h4 ▸ h2))
    simp [checkSqlSafety, h5]

/-- Witness for C1 at concrete statements. -/
theorem checkSqlSafety_zero_iff_denylist_witness :
    checkSqlSafety "SELECT a FROM t WHERE b = 1 ; DROP TABLE x" true true = 0 ∧
    containsDangerous "SELECT a FROM t WHERE b = 1 ; DROP TABLE x" = true :=
  ⟨checkSqlSafety_zero_iff_denylist.2 _ true true (by decide), by decide⟩

/-- C10 (implicit): the denylist check is a substring match on the
uppercased statement, so a read-only statement mentioning a column
`created_at` or `updated_at` (whose uppercase contains `CREATE`,
respectively `UPDATE`) scores `0.0`; and the builder's default time
dimension is precisely the column name `created_at`. -/
theorem createdAt_substring_blocked :
    (∀ (sql : String) (pne fsel : Bool), containsSub sql "created_at" = true →
       checkSqlSafety sql pne fsel = 0) ∧
    (∀ (sql : String) (pne fsel : Bool), containsSub sql "updated_at" = true →
       checkSqlSafety sql pne fsel = 0) ∧
    getTimeDimension [] = "created_at" ∧
    checkSqlSafety "SELECT created_at FROM data_table" true true = 0 := by
  refine ⟨?_, ?_, by decide, ?_⟩
  · intro sql pne fsel h
    have h1 : "created_at".data <:+: sql.data := containsSub_iff.mp h
    have h2 := upper_infix_of_infix h1
    have h4 : "created_at".data.map upperChar = "CREATED_AT".data := by decide
    have h3 : "CREATE".data <:+: "CREATED_AT".data := by decide
    have h5 : containsDangerous sql = true :=
      containsDangerous_of_keyword (by decide) (h3.trans (h4 ▸ h2))
    simp [checkSqlSafety, h5]
  · intro sql pne fsel h
    have h1 : "updated_at".data <:+: sql.data := containsSub_iff.mp h
    have h2 := upper_infix_of_infix h1
    have h4 : "updated_at".data.map upperChar = "UPDATED_AT".data := by decide
    have h3 : "UPDATE".data <:+: "UPDATED_AT".data := by decide
    have h5 : containsDangerous sql = true :=
      containsDangerous_of_keyword (by decide) (h3.trans (h4 ▸ h2))
    simp [checkSqlSafety, h5]
  · have h5 : containsDangerous "SELECT created_at FROM data_table" = true := by decide
    simp [checkSqlSafety, h5]

/-- Witness for C10: a benign aggregation over `created_at` is blocked. -/
theorem createdAt_substring_blocked_witness :
    checkSqlSafety "SELECT created_at, COUNT(*) FROM data_table GROUP BY created_at" true true = 0 :=
  createdAt_substring_blocked.1 _ true true (by decide)

/-- C6 (amended): the estimated cost is `1 + 2·(JOIN occurrences,
case-insensitive) + 3·(occurrences of the exact uppercase substring
SELECT − 1) + 1 per structural feature present`; it is a non-negative
integer whenever the statement contains at least one uppercase `SELECT`
(in particular for every template-generated statement), but the
subtraction makes it negative on statements with no uppercase
`SELECT`. -/
theorem estimateQueryCost_formula :
    ∀ sql : String,
      estimateQueryCost sql =
        1 + 2 * (countOcc (upperStr sql) "JOIN" : Int)
          + 3 * ((countOcc sql "SELECT" : Int) - 1)
          + ((["GROUP BY", "ORDER BY", "DISTINCT", "UNION"].filter
               (fun p => containsSub (upperStr sql) p)).length : Int) ∧
      (1 ≤ countOcc sql "SELECT" → 0 ≤ estimateQueryCost sql) := by
  intro sql
  have hform : estimateQueryCost sql =
      1 + 2 * (countOcc (upperStr sql) "JOIN" : Int)
        + 3 * ((countOcc sql "SELECT" : Int) - 1)
        + ((["GROUP BY", "ORDER BY", "DISTINCT", "UNION"].filter
             (fun p => containsSub (upperStr sql) p)).length : Int) := by
    simp only [estimateQueryCost]
    ring
  refine ⟨hform, fun h => ?_⟩
  rw [hform]
  have h1 : (1 : Int) ≤ (countOcc sql "SELECT" : Int) := by exact_mod_cast h
  have h2 : (0 : Int) ≤ (countOcc (upperStr sql) "JOIN" : Int) := Int.natCast_nonneg _
  have h3 : (0 : Int) ≤ ((["GROUP BY", "ORDER BY", "DISTINCT", "UNION"].filter
      (fun p => containsSub (upperStr sql) p)).length : Int) := Int.natCast_nonneg _
  linarith

/-- Counterexample for C6 as stated: a lowercase statement has no
uppercase `SELECT` occurrence, and its estimated cost is the negative
integer `-2`. -/
theorem estimateQueryCost_negative :
    estimateQueryCost "select 1" = -2 ∧ ¬ (0 ≤ estimateQueryCost "select 1") :=
  ⟨by decide, by decide⟩

/-- Witness for C6 at a concrete statement with one uppercase SELECT. -/
theorem estimateQueryCost_formula_witness :
    (1 ≤ countOcc "SELECT a FROM t GROUP BY a" "SELECT") ∧
    0 ≤ estimateQueryCost "SELECT a FROM t GROUP BY a" :=
  ⟨by decide, (estimateQueryCost_formula "SELECT a FROM t GROUP BY a").2 (by decide)⟩

set_option maxRecDepth 10000 in
/-- C2 (code bug): no `SQLQuery` with a safety score below `0.8` is ever
returned successfully; but when the safety check fails, the caller
receives the generic `SQL_GENERATION_ERROR`, not the distinct
`SQL_SAFETY_ERROR` — the broad `except Exception` clause of
`generate_sql` catches the safety `QueryError` raised two lines above it
and re-wraps it.  The second conjunct evaluates the failure at a trend
intent over an empty schema (whose template uses the default time
dimension `created_at`, itself tripping the denylist). -/
theorem generateSql_safety_gate :
    (∀ (intent : QueryIntent) (schemaInfo : SchemaInfo)
       (optimize : String → String) (parseOracle : String → Bool × Bool),
       (generateSql intent schemaInfo optimize parseOracle).toOption.all
         (fun q => decide ((8:ℚ)/10 ≤ q.safetyScore)) = true) ∧
    generateSql trendIntentEx {} id (fun _ => (true, true)) =
      .error { errorType := "SQL_GENERATION_ERROR"
               errorMessage := "生成的SQL包含潜在危险操作"
               userFriendlyMessage := "无法为您的查询生成有效的SQL语句，请尝试重新描述。" } := by
  constructor
  · intro intent schemaInfo optimize parseOracle
    simp only [generateSql, generateSqlBody]
    split_ifs with h
    · rfl
    · simp [Except.toOption, Option.all, not_lt.mp h]
  · have hD : containsDangerous (generateTemplateSql trendIntentEx {}) = true := by decide
    have hsafe : checkSqlSafety (generateTemplateSql trendIntentEx {}) true true = 0 := by
      simp [checkSqlSafety, hD]
    simp only [generateSql, generateSqlBody, id_eq, hsafe]
    rw [if_pos (by norm_num : (0:ℚ) < 8/10)]

theorem ite_nonneg {c : Prop} [Decidable c] {a b : ℚ} (ha : 0 ≤ a) (hb : 0 ≤ b) :
    0 ≤ if c then a else b := by
  split_ifs <;> assumption

theorem weighted_bonus_nonneg (tc es tmc dc mc lb kb : ℚ)
    (h1 : 0 ≤ tc) (h2 : 0 ≤ es) (h3 : 0 ≤ tmc) (h4 : 0 ≤ dc) (h5 : 0 ≤ mc)
    (h6 : 0 ≤ lb) (h7 : 0 ≤ kb) :
    0 ≤ tc * (3/10) + es * (2/10) + tmc * (2/10) + dc * (15/100)
      + mc * (15/100) + (lb + kb) := by
  positivity

theorem weighted_bonus_ge (tc lb kb : ℚ) (h1 : 0 ≤ tc) (h2 : 0 ≤ lb) (h3 : 0 ≤ kb) :
    68/100 ≤ tc * (3/10) + 1 * (2/10) + (9/10) * (2/10) + 1 * (15/100)
      + 1 * (15/100) + (lb + kb) := by
  linarith

theorem calcEnh_bounds (query : String) (qt : QueryType) (e : List String)
    (tr : Option String) (d m : List String) :
    0 ≤ calculateEnhancedConfidence query qt e tr d m ∧
    calculateEnhancedConfidence query qt e tr d m ≤ 1 ∧
    pyRound2 (calculateEnhancedConfidence query qt e tr d m) =
      calculateEnhancedConfidence query qt e tr d m := by
  refine ⟨?_, ?_, ?_⟩
  · simp only [calculateEnhancedConfidence]
    refine pyRound2_nonneg (le_min ?_ (by norm_num))
    refine weighted_bonus_nonneg _ _ _ _ _ _ _ ?_ ?_ ?_ ?_ ?_ ?_ ?_
    · exact ite_nonneg (by norm_num) (le_min (by positivity) (by norm_num))
    · exact ite_nonneg (by norm_num)
        (ite_nonneg (by norm_num) (ite_nonneg (by norm_num) (by norm_num)))
    · exact ite_nonneg (by norm_num) (by norm_num)
    · exact ite_nonneg (by norm_num) (le_min (by positivity) (by norm_num))
    · exact ite_nonneg (by norm_num) (le_min (by positivity) (by norm_num))
    · exact ite_nonneg (by norm_num) (by norm_num)
    · exact add_nonneg (ite_nonneg (by norm_num) (by norm_num))
        (ite_nonneg (by norm_num) (by norm_num))
  · simp only [calculateEnhancedConfidence]
    exact pyRound2_le_one (min_le_right _ _)
  · simp only [calculateEnhancedConfidence]
    exact pyRound2_idem _

/-- C3: every confidence produced by the local scoring path lies in
`[0, 1]` and is a fixed point of rounding to two decimals (clamp at 1.0
happens before the rounding); stated both for the scorer on arbitrary
extraction results and for the intents `_local_parse_intent` builds. -/
theorem confidence_clamped_rounded :
    (∀ (query : String) (qt : QueryType) (e : List String) (tr : Option String)
       (d m : List String),
       0 ≤ calculateEnhancedConfidence query qt e tr d m ∧
       calculateEnhancedConfidence query qt e tr d m ≤ 1 ∧
       pyRound2 (calculateEnhancedConfidence query qt e tr d m) =
         calculateEnhancedConfidence query qt e tr d m) ∧
    (∀ (query : String) (bt : QueryType),
       0 ≤ (localParseIntent query bt).confidence ∧
       (localParseIntent query bt).confidence ≤ 1 ∧
       pyRound2 (localParseIntent query bt).confidence =
         (localParseIntent query bt).confidence) := by
  refine ⟨calcEnh_bounds, fun query bt => ?_⟩
  simp only [localParseIntent]
  exact calcEnh_bounds query bt _ _ _ _

/-- C5 (amended): with at least three recognized entities, an extracted
time range, and at least one dimension and one metric, the locally
scored confidence is at least `0.68` (the weighted formula guarantees
exactly `0.2 + 0.18 + 0.15 + 0.15 = 0.68`; the type-pattern factor and
the bonuses can both be zero, so `0.7` is not guaranteed). -/
theorem confidence_high_signal (query : String) (baseType : QueryType)
    (h1 : 3 ≤ (extractEntities query).length)
    (h2 : (extractTimeRange query).isSome = true)
    (h3 : (extractDimensionsMetrics query).1 ≠ [])
    (h4 : (extractDimensionsMetrics query).2 ≠ []) :
    68/100 ≤ (localParseIntent query baseType).confidence := by
  simp only [localParseIntent]
  set e := extractEntities query with he
  set tr := extractTimeRange query with htr
  set d := (extractDimensionsMetrics query).1 with hd
  set m := (extractDimensionsMetrics query).2 with hm
  simp only [calculateEnhancedConfidence]
  rw [show (68:ℚ)/100 = ((68:ℤ):ℚ)/100 by norm_num]
  refine le_pyRound2 (le_min ?_ (by norm_num))
  rw [show (((68:ℤ):ℚ))/100 = 68/100 by norm_num]
  rw [if_pos h1, if_pos h2]
  have hde : d.isEmpty = false := by
    simpa [List.isEmpty_iff] using h3
  have hme : m.isEmpty = false := by
    simpa [List.isEmpty_iff] using h4
  rw [hde, hme]
  simp only [Bool.false_eq_true, if_false]
  have hdl : min ((d.length : ℚ) / 1) 1 = 1 := by
    rw [div_one]
    refine min_eq_right ?_
    have : 1 ≤ d.length := List.length_pos.mpr h3
    exact_mod_cast this
  have hml : min ((m.length : ℚ) / 1) 1 = 1 := by
    rw [div_one]
    refine min_eq_right ?_
    have : 1 ≤ m.length := List.length_pos.mpr h4
    exact_mod_cast this
  rw [hdl, hml]
  refine weighted_bonus_ge _ _ _ ?_ ?_ ?_
  · exact ite_nonneg (by norm_num) (le_min (by positivity) (by norm_num))
  · exact ite_nonneg (by norm_num) (by norm_num)
  · exact add_nonneg (ite_nonneg (by norm_num) (by norm_num))
      (ite_nonneg (by norm_num) (by norm_num))

/-- Witness for C5 at a concrete high-signal query. -/
theorem confidence_high_signal_witness :
    68/100 ≤ (localParseIntent highSignalQuery QueryType.statistics).confidence :=
  confidence_high_signal highSignalQuery QueryType.statistics
    (by decide) (by decide) (by decide) (by decide)

set_option maxRecDepth 100000 in
/-- Counterexample for C5 as stated: a 101-character query through the
full local pipeline recognises three entities, a time range, one
dimension and one metric, yet its confidence is `0.68 < 0.7` — the
classified category matches no pattern and no bonus applies. -/
theorem confidence_counterexample_068 :
    (parseQueryIntent {} ⟨none⟩ q5Query true .failure).intent.entities.length = 3 ∧
    (parseQueryIntent {} ⟨none⟩ q5Query true .failure).intent.timeRange.isSome = true ∧
    (parseQueryIntent {} ⟨none⟩ q5Query true .failure).intent.dimensions.length = 1 ∧
    (parseQueryIntent {} ⟨none⟩ q5Query true .failure).intent.metrics.length = 1 ∧
    (parseQueryIntent {} ⟨none⟩ q5Query true .failure).intent.confidence < 7/10 := by
  have hgate : (true && shouldUseOpenai {} ⟨none⟩) = false := by decide
  have hpre : preprocessQuery q5Query = q5Query := by decide
  have hint : (parseQueryIntent {} ⟨none⟩ q5Query true .failure).intent =
      localParseIntent q5Query (patternClassify q5Query) := by
    simp only [parseQueryIntent, hgate, Bool.false_eq_true, if_false, hpre]
  have hcls : patternClassify q5Query = QueryType.statistics := by decide
  rw [hint, hcls]
  refine ⟨by decide, by decide, by decide, by decide, ?_⟩
  simp only [localParseIntent]
  simp only [calculateEnhancedConfidence]
  have hA : ((queryPatterns QueryType.statistics).filter
      (fun p => searchB p (lowerStr q5Query).data)).length = 0 := by decide
  have hE : 3 ≤ (extractEntities q5Query).length := by decide
  have hTR : (extractTimeRange q5Query).isSome = true := by decide
  have hD1 : (extractDimensionsMetrics q5Query).1 = ["渠道"] := by decide
  have hM1 : (extractDimensionsMetrics q5Query).2 = ["用户数"] := by decide
  have hLen : (pyStrip q5Query).length = 101 := by decide
  have hKw : (businessKeywords.filter (fun kw => containsSub q5Query kw)).length = 0 := by
    decide
  rw [hA, hD1, hM1, hLen, hKw, if_pos hE, if_pos hTR]
  have hq : (queryPatterns QueryType.statistics).isEmpty = false := by decide
  have hlen4 : (queryPatterns QueryType.statistics).length = 4 := by decide
  simp only [hq, hlen4, Bool.false_eq_true, if_false]
  norm_num
  calc pyRound2 (17/25) ≤ ((68:ℤ):ℚ)/100 := pyRound2_le (by norm_num)
    _ < 7/10 := by norm_num

theorem pickMax_spec (x : QueryType × Nat) (xs : List (QueryType × Nat)) :
    ∃ k : Nat, (x :: xs)[k]? = some (pickMax x xs) ∧
      (∀ j p, j < k → (x :: xs)[j]? = some p → p.2 < (pickMax x xs).2) ∧
      (∀ p ∈ x :: xs, p.2 ≤ (pickMax x xs).2) := by
  induction xs generalizing x with
  | nil =>
    refine ⟨0, rfl, fun j p hj _ => absurd hj (by omega), fun p hp => ?_⟩
    have hx : p = x := by simpa [pickMax] using hp
    simp [pickMax, hx]
  | cons a t ih =>
    by_cases hx : x.2 < a.2
    · have hfold : pickMax x (a :: t) = pickMax a t := by
        simp [pickMax, hx]
      obtain ⟨k, h1, h2, h3⟩ := ih a
      refine ⟨k + 1, ?_, ?_, ?_⟩
      · rw [hfold]
        simpa using h1
      · intro j p hj hp
        rw [hfold]
        cases j with
        | zero =>
          have hpx : p = x := by simpa using hp.symm
          subst hpx
          exact lt_of_lt_of_le hx (h3 a (by simp))
        | succ j' =>
          have hp' : (a :: t)[j']? = some p := by simpa using hp
          exact h2 j' p (by omega) hp'
      · intro p hp
        rw [hfold]
        rcases List.mem_cons.mp hp with h | h
        · subst h
          exact le_of_lt (lt_of_lt_of_le hx (h3 a (by simp)))
        · exact h3 p h
    · have hfold : pickMax x (a :: t) = pickMax x t := by
        simp [pickMax, hx]
      obtain ⟨k, h1, h2, h3⟩ := ih x
      cases k with
      | zero =>
        have hr : some x = some (pickMax x t) := by simpa using h1
        refine ⟨0, ?_, fun j p hj _ => absurd hj (by omega), ?_⟩
        · rw [hfold]
          simpa using hr
        · intro p hp
          rw [hfold]
          rcases List.mem_cons.mp hp with h | h
          · subst h
            exact h3 p (by simp)
          · rcases List.mem_cons.mp h with h' | h'
            · subst h'
              exact le_trans (le_of_not_lt hx) (h3 x (by simp))
            · exact h3 p (by simp [h'])
      | succ k' =>
        refine ⟨k' + 2, ?_, ?_, ?_⟩
        · rw [hfold]
          simpa using h1
        · intro j p hj hp
          rw [hfold]
          have hx2 : x.2 < (pickMax x t).2 := h2 0 x (by omega) (by simp)
          match j, hp with
          | 0, hp =>
            have hpx : p = x := by simpa using hp.symm
            subst hpx
            exact hx2
          | 1, hp =>
            have hpa : p = a := by simpa using hp.symm
            subst hpa
            exact lt_of_le_of_lt (le_of_not_lt hx) hx2
          | (j'' + 2), hp =>
            have hp' : (x :: t)[j'' + 1]? = some p := by simpa using hp
            exact h2 (j'' + 1) p (by omega) hp'
        · intro p hp
          rw [hfold]
          rcases List.mem_cons.mp hp with h | h
          · subst h
            exact h3 p (by simp)
          · rcases List.mem_cons.mp h with h' | h'
            · subst h'
              exact le_trans (le_of_not_lt hx) (h3 x (by simp))
            · exact h3 p (by simp [h'])

/-- C4: `_pattern_classify` never fails and returns the category with
the highest total `findall` count; on a tie the category earliest in the
dict's insertion order (trend, comparison, ranking, statistics,
proportion) wins; when every category scores zero — in particular on the
empty string — it returns the default `STATISTICS`. -/
theorem patternClassify_spec :
    (∀ query : String, patternClassify query ∈ typeOrder) ∧
    (∀ query : String, (∀ t ∈ typeOrder, categoryScore query t = 0) →
       patternClassify query = QueryType.statistics) ∧
    (∀ (query : String) (t0 : QueryType), t0 ∈ typeOrder →
       0 < categoryScore query t0 →
       (∀ t ∈ typeOrder,
          categoryScore query t ≤ categoryScore query (patternClassify query)) ∧
       ∃ k : Nat, typeOrder[k]? = some (patternClassify query) ∧
         ∀ j t, j < k → typeOrder[j]? = some t →
           categoryScore query t < categoryScore query (patternClassify query)) ∧
    patternClassify "" = QueryType.statistics := by
  have main : ∀ query : String,
      patternClassify query ∈ typeOrder ∧
      ((∀ t ∈ typeOrder, categoryScore query t = 0) →
        patternClassify query = QueryType.statistics) ∧
      (∀ t0 : QueryType, t0 ∈ typeOrder → 0 < categoryScore query t0 →
        (∀ t ∈ typeOrder,
           categoryScore query t ≤ categoryScore query (patternClassify query)) ∧
        ∃ k : Nat, typeOrder[k]? = some (patternClassify query) ∧
          ∀ j t, j < k → typeOrder[j]? = some t →
            categoryScore query t < categoryScore query (patternClassify query)) := by
    intro query
    have hpc : patternClassify query =
        (if 0 < (pickMax (QueryType.trend, categoryScore query QueryType.trend)
            [(QueryType.comparison, categoryScore query QueryType.comparison),
             (QueryType.ranking, categoryScore query QueryType.ranking),
             (QueryType.statistics, categoryScore query QueryType.statistics),
             (QueryType.proportion, categoryScore query QueryType.proportion)]).2
         then (pickMax (QueryType.trend, categoryScore query QueryType.trend)
            [(QueryType.comparison, categoryScore query QueryType.comparison),
             (QueryType.ranking, categoryScore query QueryType.ranking),
             (QueryType.statistics, categoryScore query QueryType.statistics),
             (QueryType.proportion, categoryScore query QueryType.proportion)]).1
         else QueryType.statistics) := rfl
    obtain ⟨k, hk1, hk2, hk3⟩ :=
      pickMax_spec (QueryType.trend, categoryScore query QueryType.trend)
        [(QueryType.comparison, categoryScore query QueryType.comparison),
         (QueryType.ranking, categoryScore query QueryType.ranking),
         (QueryType.statistics, categoryScore query QueryType.statistics),
         (QueryType.proportion, categoryScore query QueryType.proportion)]
    set r := pickMax (QueryType.trend, categoryScore query QueryType.trend)
        [(QueryType.comparison, categoryScore query QueryType.comparison),
         (QueryType.ranking, categoryScore query QueryType.ranking),
         (QueryType.statistics, categoryScore query QueryType.statistics),
         (QueryType.proportion, categoryScore query QueryType.proportion)] with hrdef
    have hrmem := List.getElem?_mem hk1
    have hr2 : r.2 = categoryScore query r.1 := by
      simp only [List.mem_cons, List.not_mem_nil, or_false] at hrmem
      rcases hrmem with h | h | h | h | h <;> rw [h]
    have hr1mem : r.1 ∈ typeOrder := by
      simp only [List.mem_cons, List.not_mem_nil, or_false] at hrmem
      rcases hrmem with h | h | h | h | h <;> rw [h] <;> simp [typeOrder]
    have hmem_scores : ∀ t ∈ typeOrder, (t, categoryScore query t) ∈
        (QueryType.trend, categoryScore query QueryType.trend) ::
        [(QueryType.comparison, categoryScore query QueryType.comparison),
         (QueryType.ranking, categoryScore query QueryType.ranking),
         (QueryType.statistics, categoryScore query QueryType.statistics),
         (QueryType.proportion, categoryScore query QueryType.proportion)] := by
      intro t ht
      simp only [typeOrder, List.mem_cons, List.not_mem_nil, or_false] at ht
      rcases ht with rfl | rfl | rfl | rfl | rfl <;> simp
    refine ⟨?_, ?_, ?_⟩
    · rw [hpc]
      split_ifs
      · exact hr1mem
      · simp [typeOrder]
    · intro hz
      rw [hpc]
      have hr0 : r.2 = 0 := by rw [hr2]; exact hz r.1 hr1mem
      rw [if_neg (by omega)]
    · intro t0 ht0 hpos
      have hle : categoryScore query t0 ≤ r.2 := hk3 _ (hmem_scores t0 ht0)
      have hpos' : 0 < r.2 := lt_of_lt_of_le hpos hle
      rw [hpc, if_pos hpos']
      constructor
      · intro t ht
        rw [← hr2]
        exact hk3 _ (hmem_scores t ht)
      · refine ⟨k, ?_, ?_⟩
        · have hmapped : (typeOrder.map (fun t => (t, categoryScore query t)))[k]? =
              some r := hk1
          rw [List.getElem?_map] at hmapped
          cases hkt : typeOrder[k]? with
          | none => rw [hkt] at hmapped; simp at hmapped
          | some tk =>
            rw [hkt] at hmapped
            simp only [Option.map_some'] at hmapped
            have hpair : (tk, categoryScore query tk) = r := Option.some.inj hmapped
            have htk : tk = r.1 := by rw [← hpair]
            exact congrArg some htk
        · intro j t hj hjt
          have hsc : ((typeOrder.map (fun t => (t, categoryScore query t)))[j]?) =
              some (t, categoryScore query t) := by
            rw [List.getElem?_map, hjt]
            rfl
          have hlt := hk2 j (t, categoryScore query t) hj hsc
          rw [← hr2]
          exact hlt
  refine ⟨fun q => (main q).1, fun q => (main q).2.1, fun q => (main q).2.2, by decide⟩

/-- Witness for C4: the trend-vocabulary query 趋势 classifies as TREND
and maximises the category score; the empty string takes the default. -/
theorem patternClassify_spec_witness :
    patternClassify "" = QueryType.statistics ∧
    patternClassify "趋势" = QueryType.trend ∧
    categoryScore "趋势" QueryType.statistics ≤
      categoryScore "趋势" (patternClassify "趋势") :=
  ⟨patternClassify_spec.2.1 "" (by decide), by decide,
   (patternClassify_spec.2.2.1 "趋势" QueryType.trend (by decide) (by decide)).1
     QueryType.statistics (by decide)⟩

theorem bool_and_false_of_not_both {p q : Bool} (h : ¬(p = true ∧ q = true)) :
    (p && q) = false := by
  cases hp : p
  · simp
  · cases hq : q
    · simp
    · exact absurd ⟨hp, hq⟩ h

/-- C7 (amended): the chart refinement ladder holds exactly as claimed,
with every data-shape predicate (time-keyword column name, categorical
value, numeric value, column count) evaluated on the first row of the
preview only; the row count is that of the whole preview, and the base
rule table is TREND→LINE, COMPARISON→BAR, RANKING→BAR,
STATISTICS→NUMBER, PROPORTION→PIE. -/
theorem recommendChart_ladder (intent : QueryIntent) (preview : List Row)
    (hne : preview ≠ []) :
    (hasTimeSeriesData preview = true → hasNumericData preview = true →
       recommendChart intent (some preview) = ChartType.line) ∧
    (¬(hasTimeSeriesData preview = true ∧ hasNumericData preview = true) →
       hasCategoricalData preview = true → hasNumericData preview = true →
       (preview.length ≤ 5 → recommendChart intent (some preview) = ChartType.pie) ∧
       (¬ preview.length ≤ 5 → preview.length ≤ 20 →
          recommendChart intent (some preview) = ChartType.bar) ∧
       (¬ preview.length ≤ 20 → recommendChart intent (some preview) = ChartType.table)) ∧
    (¬(hasTimeSeriesData preview = true ∧ hasNumericData preview = true) →
       ¬(hasCategoricalData preview = true ∧ hasNumericData preview = true) →
       (preview.headD []).length = 1 →
       recommendChart intent (some preview) = ChartType.number) ∧
    (¬(hasTimeSeriesData preview = true ∧ hasNumericData preview = true) →
       ¬(hasCategoricalData preview = true ∧ hasNumericData preview = true) →
       (preview.headD []).length ≠ 1 → 50 < preview.length →
       recommendChart intent (some preview) = ChartType.table) ∧
    (¬(hasTimeSeriesData preview = true ∧ hasNumericData preview = true) →
       ¬(hasCategoricalData preview = true ∧ hasNumericData preview = true) →
       (preview.headD []).length ≠ 1 → ¬ 50 < preview.length →
       recommendChart intent (some preview) = chartRules intent.queryType) ∧
    (chartRules .trend = .line ∧ chartRules .comparison = .bar ∧
       chartRules .ranking = .bar ∧ chartRules .statistics = .number ∧
       chartRules .proportion = .pie) := by
  have hie : preview.isEmpty = false := by
    simpa [List.isEmpty_iff] using hne
  refine ⟨?_, ?_, ?_, ?_, ?_, by decide⟩
  · intro h1 h2
    simp [recommendChart, optimizeChartByData, hie, h1, h2]
  · intro h12 hc hn
    have hb := bool_and_false_of_not_both h12
    have ht : hasTimeSeriesData preview = false := by
      simpa [hn] using hb
    refine ⟨fun h5 => ?_, fun h5 h20 => ?_, fun h20 => ?_⟩
    · simp [recommendChart, optimizeChartByData, hie, ht, hc, hn, h5]
    · simp [recommendChart, optimizeChartByData, hie, ht, hc, hn, h5, h20]
    · have h5 : ¬ preview.length ≤ 5 := by omega
      simp [recommendChart, optimizeChartByData, hie, ht, hc, hn, h5, h20]
  · intro h12 h34 hcol
    have hb := bool_and_false_of_not_both h12
    have hb2 := bool_and_false_of_not_both h34
    rw [List.headD_eq_head?_getD] at hcol
    simp [recommendChart, optimizeChartByData, hie, hb, hb2, hcol]
  · intro h12 h34 hcol h50
    have hb := bool_and_false_of_not_both h12
    have hb2 := bool_and_false_of_not_both h34
    rw [List.headD_eq_head?_getD] at hcol
    simp [recommendChart, optimizeChartByData, hie, hb, hb2, hcol, h50]
  · intro h12 h34 hcol h50
    have hb := bool_and_false_of_not_both h12
    have hb2 := bool_and_false_of_not_both h34
    rw [List.headD_eq_head?_getD] at hcol
    simp [recommendChart, optimizeChartByData, hie, hb, hb2, hcol, h50]

/-- Witness for C7: a categorical+numeric preview of 4 rows gives PIE,
12 rows BAR, 30 rows TABLE; one time-keyword column with a numeric
column gives LINE. -/
theorem recommendChart_ladder_witness :
    recommendChart statsIntentEx (some (previewCatNum 4)) = ChartType.pie ∧
    recommendChart statsIntentEx (some (previewCatNum 12)) = ChartType.bar ∧
    recommendChart statsIntentEx (some (previewCatNum 30)) = ChartType.table ∧
    recommendChart statsIntentEx (some previewTimeNum) = ChartType.line := by
  refine ⟨?_, ?_, ?_, ?_⟩
  · exact ((recommendChart_ladder statsIntentEx (previewCatNum 4) (by decide)).2.1
      (by decide) (by decide) (by decide)).1 (by decide)
  · exact ((recommendChart_ladder statsIntentEx (previewCatNum 12) (by decide)).2.1
      (by decide) (by decide) (by decide)).2.1 (by decide) (by decide)
  · exact ((recommendChart_ladder statsIntentEx (previewCatNum 30) (by decide)).2.1
      (by decide) (by decide) (by decide)).2.2 (by decide)
  · exact (recommendChart_ladder statsIntentEx previewTimeNum (by decide)).1
      (by decide) (by decide)

/-- Counterexample for C7 as stated: in `previewMixed` the only column
is named `date_col` (a time keyword) and holds the numeric value `5` in
its second row, so the claim's ladder demands LINE; the code inspects
only the first row (`"abc"`, not numeric), falls through to the
single-column case and returns NUMBER. -/
theorem recommendChart_counterexample :
    hasTimeSeriesData previewMixed = true ∧
    anyRowNumericValue previewMixed = true ∧
    recommendChart statsIntentEx (some previewMixed) = ChartType.number ∧
    ChartType.number ≠ ChartType.line :=
  ⟨by decide, by decide, by decide, by decide⟩

theorem mapEntitiesToColumns_nil (cols : List String) :
    mapEntitiesToColumns [] cols = [] := rfl

theorem sqlParams_metrics_default (intent : QueryIntent) (schemaInfo : SchemaInfo)
    (h : intent.metrics = []) : (sqlParams intent schemaInfo).metrics = "COUNT(*)" := by
  simp [sqlParams, h, mapEntitiesToColumns_nil]

theorem sqlParams_metric_default (intent : QueryIntent) (schemaInfo : SchemaInfo)
    (h : intent.metrics = []) : (sqlParams intent schemaInfo).metric = "sales_amount" := by
  simp [sqlParams, h, mapEntitiesToColumns_nil]

theorem sqlParams_dimensions_default (intent : QueryIntent) (schemaInfo : SchemaInfo)
    (h : intent.dimensions = []) : (sqlParams intent schemaInfo).dimensions = "1" := by
  simp [sqlParams, h, mapEntitiesToColumns_nil]

theorem sqlParams_dimension_default (intent : QueryIntent) (schemaInfo : SchemaInfo)
    (h : intent.dimensions = []) : (sqlParams intent schemaInfo).dimension = "category" := by
  simp [sqlParams, h, mapEntitiesToColumns_nil]

theorem sqlParams_timeFilter_none (intent : QueryIntent) (schemaInfo : SchemaInfo)
    (h : intent.timeRange = none) : (sqlParams intent schemaInfo).timeFilter = "1=1" := by
  simp [sqlParams, h, buildTimeFilter]

theorem buildTimeFilter_noColumn (tr : String) (cols : List String)
    (h : ∀ col ∈ cols,
      (timeFilterKeywords.any fun kw => containsSub (lowerStr col) kw) = false) :
    buildTimeFilter (some tr) cols = "1=1" := by
  have hf : cols.find?
      (fun col => timeFilterKeywords.any fun kw => containsSub (lowerStr col) kw) = none :=
    List.find?_eq_none.mpr (fun col hc => by simp [h col hc])
  simp [buildTimeFilter, hf]

theorem buildTimeFilter_unrecognized (tr : String) (cols : List String)
    (h : lowerStr tr ∉ (["today", "yesterday", "this week", "last week",
      "this month", "last month"] : List String)) :
    buildTimeFilter (some tr) cols = "1=1" := by
  have h1 : lowerStr tr ≠ "today" := fun he => h (by simp [he])
  have h2 : lowerStr tr ≠ "yesterday" := fun he => h (by simp [he])
  have h3 : lowerStr tr ≠ "this week" := fun he => h (by simp [he])
  have h4 : lowerStr tr ≠ "last week" := fun he => h (by simp [he])
  have h5 : lowerStr tr ≠ "this month" := fun he => h (by simp [he])
  have h6 : lowerStr tr ≠ "last month" := fun he => h (by simp [he])
  cases hf : cols.find?
      (fun col => timeFilterKeywords.any fun kw => containsSub (lowerStr col) kw) with
  | none => simp [buildTimeFilter, hf]
  | some tc => simp [buildTimeFilter, hf, h1, h2, h3, h4, h5, h6]

theorem sqlParams_timeFilter_noColumn (intent : QueryIntent) (schemaInfo : SchemaInfo)
    (tr : String) (h : intent.timeRange = some tr)
    (hcols : ∀ col ∈ schemaInfo.columns.getD [],
      (timeFilterKeywords.any fun kw => containsSub (lowerStr col) kw) = false) :
    (sqlParams intent schemaInfo).timeFilter = "1=1" := by
  simp [sqlParams, h, buildTimeFilter_noColumn tr _ hcols]

theorem sqlParams_timeFilter_unrecognized (intent : QueryIntent) (schemaInfo : SchemaInfo)
    (tr : String) (h : intent.timeRange = some tr)
    (hne : lowerStr tr ∉ (["today", "yesterday", "this week", "last week",
      "this month", "last month"] : List String)) :
    (sqlParams intent schemaInfo).timeFilter = "1=1" := by
  simp [sqlParams, h, buildTimeFilter_unrecognized tr _ hne]

/-- C8: for every intent and schema descriptor, template filling is
total — the statement is `str.strip` of the chosen template filled with
the computed parameters, and every generated statement contains the
`FROM` clause of its template — and each missing ingredient falls back
to its documented default independently: empty metrics give `COUNT(*)`
(and `sales_amount` for the single-metric slot), empty dimensions give
the dimension list `"1"` and the generic `category` column, and a
missing time range, a schema with no time-keyword column, or an
unrecognized time-range token each degrade the time filter to the
always-true clause `1=1`; the row limit defaults to `10`.  The defaults
are visible in the generated text of each template. -/
theorem generateTemplateSql_defaults :
    ∀ (intent : QueryIntent) (schemaInfo : SchemaInfo),
      (intent.metrics = [] →
        (sqlParams intent schemaInfo).metrics = "COUNT(*)" ∧
        (sqlParams intent schemaInfo).metric = "sales_amount") ∧
      (intent.dimensions = [] →
        (sqlParams intent schemaInfo).dimensions = "1" ∧
        (sqlParams intent schemaInfo).dimension = "category") ∧
      (intent.timeRange = none → (sqlParams intent schemaInfo).timeFilter = "1=1") ∧
      (∀ tr, intent.timeRange = some tr →
        (∀ col ∈ schemaInfo.columns.getD [],
          (timeFilterKeywords.any fun kw => containsSub (lowerStr col) kw) = false) →
        (sqlParams intent schemaInfo).timeFilter = "1=1") ∧
      (∀ tr, intent.timeRange = some tr →
        lowerStr tr ∉ (["today", "yesterday", "this week", "last week",
          "this month", "last month"] : List String) →
        (sqlParams intent schemaInfo).timeFilter = "1=1") ∧
      (sqlParams intent schemaInfo).limit = "10" ∧
      generateTemplateSql intent schemaInfo =
        pyStrip (templateFill intent.queryType (sqlParams intent schemaInfo)) ∧
      containsSub (generateTemplateSql intent schemaInfo) "FROM" = true ∧
      (intent.queryType = QueryType.trend → intent.metrics = [] →
        intent.timeRange = none →
        containsSub (generateTemplateSql intent schemaInfo) "COUNT(*)" = true ∧
        containsSub (generateTemplateSql intent schemaInfo) "1=1" = true) ∧
      (intent.queryType = QueryType.comparison → intent.metrics = [] →
        containsSub (generateTemplateSql intent schemaInfo) "COUNT(*)" = true) ∧
      (intent.queryType = QueryType.ranking → intent.metrics = [] →
        containsSub (generateTemplateSql intent schemaInfo) "COUNT(*)" = true) ∧
      (intent.queryType = QueryType.statistics → intent.metrics = [] →
        containsSub (generateTemplateSql intent schemaInfo) "sales_amount" = true) ∧
      (intent.queryType = QueryType.proportion → intent.dimensions = [] →
        containsSub (generateTemplateSql intent schemaInfo) "category" = true) := by
  intro intent schemaInfo
  refine ⟨fun h => ⟨sqlParams_metrics_default intent schemaInfo h,
      sqlParams_metric_default intent schemaInfo h⟩,
    fun h => ⟨sqlParams_dimensions_default intent schemaInfo h,
      sqlParams_dimension_default intent schemaInfo h⟩,
    fun h => sqlParams_timeFilter_none intent schemaInfo h,
    fun tr h hcols => sqlParams_timeFilter_noColumn intent schemaInfo tr h hcols,
    fun tr h hne => sqlParams_timeFilter_unrecognized intent schemaInfo tr h hne,
    rfl, rfl, ?_, ?_, ?_, ?_, ?_, ?_⟩
  · cases hqt : intent.queryType with
    | trend =>
      refine containsSub_pyStrip (by decide) (by decide) ?_
      rw [hqt]
      simp only [templateFill, fillTrend, String.data_append]
      iterate 8 apply infix_app_right
      apply infix_app_left
      decide
    | comparison =>
      refine containsSub_pyStrip (by decide) (by decide) ?_
      rw [hqt]
      simp only [templateFill, fillComparison, String.data_append]
      iterate 9 apply infix_app_right
      apply infix_app_left
      decide
    | ranking =>
      refine containsSub_pyStrip (by decide) (by decide) ?_
      rw [hqt]
      simp only [templateFill, fillRanking, String.data_append]
      iterate 11 apply infix_app_right
      apply infix_app_left
      decide
    | statistics =>
      refine containsSub_pyStrip (by decide) (by decide) ?_
      rw [hqt]
      simp only [templateFill, fillStatistics, String.data_append]
      iterate 4 apply infix_app_right
      apply infix_app_left
      decide
    | proportion =>
      refine containsSub_pyStrip (by decide) (by decide) ?_
      rw [hqt]
      simp only [templateFill, fillProportion, String.data_append]
      iterate 9 apply infix_app_right
      apply infix_app_left
      decide
  · intro hqt hm ht
    constructor
    · refine containsSub_pyStrip (by decide) (by decide) ?_
      rw [hqt]
      simp only [templateFill, fillTrend, String.data_append]
      iterate 9 apply infix_app_right
      apply infix_app_left
      rw [sqlParams_metrics_default intent schemaInfo hm]
    · refine containsSub_pyStrip (by decide) (by decide) ?_
      rw [hqt]
      simp only [templateFill, fillTrend, String.data_append]
      iterate 5 apply infix_app_right
      apply infix_app_left
      rw [sqlParams_timeFilter_none intent schemaInfo ht]
  · intro hqt hm
    refine containsSub_pyStrip (by decide) (by decide) ?_
    rw [hqt]
    simp only [templateFill, fillComparison, String.data_append]
    iterate 2 apply infix_app_right
    apply infix_app_left
    rw [sqlParams_metrics_default intent schemaInfo hm]
  · intro hqt hm
    refine containsSub_pyStrip (by decide) (by decide) ?_
    rw [hqt]
    simp only [templateFill, fillRanking, String.data_append]
    iterate 4 apply infix_app_right
    apply infix_app_left
    rw [sqlParams_metrics_default intent schemaInfo hm]
  · intro hqt hm
    refine containsSub_pyStrip (by decide) (by decide) ?_
    rw [hqt]
    simp only [templateFill, fillStatistics, String.data_append]
    iterate 6 apply infix_app_right
    apply infix_app_left
    rw [sqlParams_metric_default intent schemaInfo hm]
  · intro hqt hd
    refine containsSub_pyStrip (by decide) (by decide) ?_
    rw [hqt]
    simp only [templateFill, fillProportion, String.data_append]
    iterate 4 apply infix_app_right
    apply infix_app_left
    rw [sqlParams_dimension_default intent schemaInfo hd]

/-- Witness for C8: the trend template over an empty schema shows both
defaults in the text, and a present-but-unrecognized time range (with a
time column available) still degrades to the always-true clause. -/
theorem generateTemplateSql_defaults_witness :
    containsSub (generateTemplateSql (defaultIntent QueryType.trend []) {}) "COUNT(*)" = true ∧
    containsSub (generateTemplateSql (defaultIntent QueryType.trend []) {}) "1=1" = true ∧
    (sqlParams { queryType := QueryType.trend,
                 timeRange := some "last quarter",
                 confidence := 6/10 }
      { mainTable := some "orders", columns := some ["order_date", "amount"] }).timeFilter
      = "1=1" :=
  ⟨((generateTemplateSql_defaults (defaultIntent QueryType.trend []) {}).2.2.2.2.2.2.2.2.1
      rfl rfl rfl).1,
   ((generateTemplateSql_defaults (defaultIntent QueryType.trend []) {}).2.2.2.2.2.2.2.2.1
      rfl rfl rfl).2,
   (generateTemplateSql_defaults { queryType := QueryType.trend,
                                   timeRange := some "last quarter",
                                   confidence := 6/10 }
      { mainTable := some "orders", columns := some ["order_date", "amount"] }).2.2.2.2.1
      "last quarter" rfl (by decide)⟩

theorem shouldUse_false_of_limit {st : NLPState} {cfg : EngineConfig}
    (h : 1000 ≤ st.apiCallCount) : shouldUseOpenai st cfg = false := by
  simp [shouldUseOpenai, h]

theorem shouldUse_false_of_creds {st : NLPState} {cfg : EngineConfig}
    (h : cfg.openaiApiKey = none ∨ cfg.openaiApiKey = some ""
      ∨ cfg.openaiApiKey = some "test_key_placeholder") :
    shouldUseOpenai st cfg = false := by
  by_cases h1 : 1000 ≤ st.apiCallCount
  · simp [shouldUseOpenai, h1]
  · simp [shouldUseOpenai, h1, h]

/-- C9 (amended): the call counter is incremented (and one cost record
appended) exactly on each successful external call; a failed attempted
call leaves the state unchanged, because the fallback path returns
before `_track_api_usage` runs.  Gating holds as claimed: once the
counter reaches the daily ceiling of 1000, or when the API key is
absent, empty or the placeholder, the refiner is not invoked and the
locally parsed intent is returned directly. -/
theorem parseQueryIntent_tracking :
    ∀ (st : NLPState) (cfg : EngineConfig) (q : String) (useOpenai : Bool)
      (outcome : OpenAIOutcome),
      ((parseQueryIntent st cfg q useOpenai outcome).invokedOpenAI = true →
        ∀ i, outcome = OpenAIOutcome.success i →
          (parseQueryIntent st cfg q useOpenai outcome).state.apiCallCount
            = st.apiCallCount + 1 ∧
          (parseQueryIntent st cfg q useOpenai outcome).state.apiCostTracking
            = st.apiCostTracking + 1 ∧
          (parseQueryIntent st cfg q useOpenai outcome).intent = i) ∧
      ((parseQueryIntent st cfg q useOpenai outcome).invokedOpenAI = true →
        outcome = OpenAIOutcome.failure →
        (parseQueryIntent st cfg q useOpenai outcome).state = st) ∧
      (1000 ≤ st.apiCallCount →
        (parseQueryIntent st cfg q useOpenai outcome).invokedOpenAI = false) ∧
      (cfg.openaiApiKey = none ∨ cfg.openaiApiKey = some ""
         ∨ cfg.openaiApiKey = some "test_key_placeholder" →
        (parseQueryIntent st cfg q useOpenai outcome).invokedOpenAI = false) ∧
      ((parseQueryIntent st cfg q useOpenai outcome).invokedOpenAI = false →
        (parseQueryIntent st cfg q useOpenai outcome).state = st ∧
        (parseQueryIntent st cfg q useOpenai outcome).intent =
          localParseIntent (preprocessQuery q)
            (patternClassify (preprocessQuery q))) := by
  intro st cfg q useOpenai outcome
  by_cases hg : (useOpenai && shouldUseOpenai st cfg) = true
  · have hgate : shouldUseOpenai st cfg = true := (Bool.and_eq_true _ _).mp hg |>.2
    cases outcome with
    | success i =>
      refine ⟨?_, ?_, ?_, ?_, ?_⟩
      · intro _ i2 hi2
        have hii : i = i2 := by injection hi2
        subst hii
        simp [parseQueryIntent, hg, trackApiUsage]
      · intro _ hfail
        exact absurd hfail (by simp)
      · intro hlim
        exact absurd hgate (by simp [shouldUse_false_of_limit hlim])
      · intro hcred
        exact absurd hgate (by simp [shouldUse_false_of_creds hcred])
      · intro hfalse
        have : (parseQueryIntent st cfg q useOpenai (OpenAIOutcome.success i)).invokedOpenAI
            = true := by simp [parseQueryIntent, hg]
        exact absurd this (by simp [hfalse])
    | failure =>
      refine ⟨?_, ?_, ?_, ?_, ?_⟩
      · intro _ i2 hi2
        exact absurd hi2 (by simp)
      · intro _ _
        simp [parseQueryIntent, hg]
      · intro hlim
        exact absurd hgate (by simp [shouldUse_false_of_limit hlim])
      · intro hcred
        exact absurd hgate (by simp [shouldUse_false_of_creds hcred])
      · intro hfalse
        have : (parseQueryIntent st cfg q useOpenai OpenAIOutcome.failure).invokedOpenAI
            = true := by simp [parseQueryIntent, hg]
        exact absurd this (by simp [hfalse])
  · have hgf : (useOpenai && shouldUseOpenai st cfg) = false := by
      simpa using hg
    have hinv : (parseQueryIntent st cfg q useOpenai outcome).invokedOpenAI = false := by
      simp [parseQueryIntent, hgf]
    refine ⟨?_, ?_, fun _ => hinv, fun _ => hinv, ?_⟩
    · intro htrue
      exact absurd htrue (by simp [hinv])
    · intro htrue
      exact absurd htrue (by simp [hinv])
    · intro _
      exact ⟨by simp [parseQueryIntent, hgf], by simp [parseQueryIntent, hgf]⟩

/-- Witness for C9: at the ceiling the refiner is not invoked. -/
theorem parseQueryIntent_tracking_witness :
    (parseQueryIntent ⟨1000, 1000⟩ ⟨some "sk-live"⟩ "统计"
      true OpenAIOutcome.failure).invokedOpenAI = false :=
  (parseQueryIntent_tracking ⟨1000, 1000⟩ ⟨some "sk-live"⟩ "统计"
    true OpenAIOutcome.failure).2.2.1 (by norm_num)

/-- Counterexample for C9 as stated: a failed attempted call (valid key,
counter 0, refiner invoked) leaves the counter at 0 — the claim says
every attempted call increments it. -/
theorem apiCounter_not_incremented_on_failure :
    (parseQueryIntent {} ⟨some "sk-live"⟩ "统计" true
      OpenAIOutcome.failure).invokedOpenAI = true ∧
    (parseQueryIntent {} ⟨some "sk-live"⟩ "统计" true
      OpenAIOutcome.failure).state.apiCallCount = 0 ∧
    (parseQueryIntent {} ⟨some "sk-live"⟩ "统计" true
      OpenAIOutcome.failure).state.apiCallCount ≠ 0 + 1 :=
  ⟨by decide, by decide, by decide⟩

end AIEngine
